import Mathlib

/-!
Verification of the web-pacman maze generator and game-state logic.

The definitions below are a shallow embedding of the TypeScript sources:

* `src/frontend/src/types.ts` — `Position`, `TunnelPair`, `MazeData`;
* `src/frontend/src/MazeGenerator.ts` — the classic fixed-layout generator
  (namespace `MazeGenerator`); its `validateMaze` breadth-first search is
  shared verbatim with the earlier revision;
* the earlier stochastic recursive-subdivision revision of the generator
  (namespace `MazeGeneratorSubdiv`), whose `Math.random()` calls are
  modelled by an explicit stream `rand : Nat -> Rat` consumed in call order;
* `src/frontend/src/scenes/GameScene.ts` and its extended revision — power
  mode, collisions, lives, difficulty scaling and ghost direction choice.

Boolean matrices (`boolean[][]`) are embedded as `List (List Bool)`;
JavaScript numbers that only ever hold integers are embedded as `Nat`/`Int`,
and the remaining numeric state (timers, speeds, pixel coordinates, random
samples) as `Rat`.  The BFS work queue of `validateMaze` is a `List`, its
`visited` matrix a `Finset` of coordinates (a boolean matrix used only as a
set), and the `while` loop runs on fuel `width * height + 1`, proved
sufficient below, so that the function stays structurally recursive and
computable by the kernel.
-/

namespace WebPacman

/-- Type `Position` from types.ts: an integer grid coordinate pair. -/
structure Position where
  x : Int
  y : Int
deriving DecidableEq

/-- Type `TunnelPair` from types.ts. -/
structure TunnelPair where
  entrance : Position
  exit : Position
deriving DecidableEq

/-- A `boolean[][]` matrix, indexed row-major: `grid[y][x]`. -/
abbrev Grid := List (List Bool)

/-- Type `MazeData` from types.ts. -/
structure MazeData where
  width : Nat
  height : Nat
  walls : Grid
  dots : Grid
  powerPellets : List Position
  tunnels : List TunnelPair
  ghostSpawn : Position
  playerSpawn : Position
deriving DecidableEq

/-- Read `grid[y][x]`, with a default for out-of-range reads (the embedded
code only reads in bounds). -/
def getCell (g : Grid) (x y : Nat) (d : Bool) : Bool :=
  (g.getD y []).getD x d

/-- Write `grid[y][x] = b` (in-bounds writes only, as in the source). -/
def setCell (g : Grid) (x y : Nat) (b : Bool) : Grid :=
  g.set y ((g.getD y []).set x b)

/-- The matrix has `height` rows of length `width` each. -/
def GridDims (g : Grid) (width height : Nat) : Prop :=
  g.length = height ∧ ∀ row ∈ g, row.length = width

/-- The four neighbour offsets used by `validateMaze` and the movement code,
in source order: up, down, left, right (as `(dx, dy)`). -/
def dirOffsets : List (Int × Int) := [(0, -1), (0, 1), (-1, 0), (1, 0)]

end WebPacman

namespace WebPacman

/-- The `visited[y][x]` cell a position marks: pairs are row-major `(y, x)`. -/
def cellOf (p : Position) : Nat × Nat := (p.y.toNat, p.x.toNat)

/-- Loop state of `MazeGenerator.validateMaze`: the `visited` boolean matrix
(kept as the set of marked cells, row-major), the BFS `queue`, and
`reachableCount`. -/
structure BfsState where
  visited : Finset (Nat × Nat)
  queue : List Position
  count : Nat

/-- One neighbour inspection inside the BFS loop of `validateMaze`:
bounds check, visited check, wall check; on success mark, enqueue, count. -/
def bfsVisit (walls : Grid) (width height : Nat) (st : BfsState) (q : Position) :
    BfsState :=
  if 0 ≤ q.x ∧ q.x < (width : Int) ∧ 0 ≤ q.y ∧ q.y < (height : Int) ∧
      cellOf q ∉ st.visited ∧
      getCell walls q.x.toNat q.y.toNat true = false then
    { visited := insert (cellOf q) st.visited,
      queue := st.queue ++ [q],
      count := st.count + 1 }
  else st

/-- The four neighbour positions of the dequeued cell, in source order. -/
def neighborPositions (c : Position) : List Position :=
  dirOffsets.map (fun d => ⟨c.x + d.1, c.y + d.2⟩)

/-- Process a list of candidate neighbour positions in order. -/
def expandList (walls : Grid) (width height : Nat) (st : BfsState)
    (ps : List Position) : BfsState :=
  ps.foldl (bfsVisit walls width height) st

/-- The `while (queue.length > 0)` loop of `validateMaze`, on fuel.  Each
iteration dequeues one cell and inspects its four neighbours.  Fuel
a fuel of `width * height + 1` is proved sufficient inside `validateMaze_correct`. -/
def bfsLoop (walls : Grid) (width height : Nat) :
    Nat → BfsState → Finset (Nat × Nat) × Nat
  | 0, st => (st.visited, st.count)
  | fuel + 1, st =>
    match st.queue with
    | [] => (st.visited, st.count)
    | c :: rest =>
      bfsLoop walls width height fuel
        (expandList walls width height
          { visited := st.visited, queue := rest, count := st.count }
          (neighborPositions c))

/-- Counter `totalSpaces`: the double counting loop of `validateMaze`. -/
def totalSpaces (walls : Grid) (width height : Nat) : Nat :=
  (List.range height).foldl
    (fun n y =>
      (List.range width).foldl
        (fun n x => if getCell walls x y true = false then n + 1 else n) n)
    0

/-- Method `MazeGenerator.validateMaze` (identical in both source revisions):
breadth-first reachability count from `spawn` compared with the number of
non-wall cells. -/
def validateMaze (walls : Grid) (spawn : Position) (width height : Nat) : Bool :=
  let st0 : BfsState :=
    { visited := {cellOf spawn}, queue := [spawn], count := 1 }
  let r := bfsLoop walls width height (width * height + 1) st0
  r.2 == totalSpaces walls width height

/-- Cell `(y, x)` is inside the grid. -/
def inB (width height : Nat) (c : Nat × Nat) : Prop :=
  c.1 < height ∧ c.2 < width

/-- Cell `(y, x)` is inside the grid and not a wall. -/
def openCell (walls : Grid) (width height : Nat) (c : Nat × Nat) : Prop :=
  inB width height c ∧ getCell walls c.2 c.1 true = false

/-- Cells `a` and `b` are 4-directionally adjacent. -/
def nbr (a b : Nat × Nat) : Prop :=
  b.1 = a.1 ∧ (b.2 + 1 = a.2 ∨ a.2 + 1 = b.2) ∨
    b.2 = a.2 ∧ (b.1 + 1 = a.1 ∨ a.1 + 1 = b.1)

/-- One step of 4-directional adjacency into an in-bounds non-wall cell:
exactly the moves the BFS of `validateMaze` accepts. -/
def adjStep (walls : Grid) (width height : Nat) (a b : Nat × Nat) : Prop :=
  openCell walls width height b ∧ nbr a b

/-- Reachability through non-wall cells by 4-directional adjacency,
on row-major cells `(y, x)`. -/
def Reach (walls : Grid) (width height : Nat) (s c : Nat × Nat) : Prop :=
  Relation.ReflTransGen (adjStep walls width height) s c

end WebPacman

namespace WebPacman.MazeGenerator

/-- Field `MazeGenerator.baseWidth` (src/frontend/src/MazeGenerator.ts). -/
def baseWidth : Nat := 28

/-- Field `MazeGenerator.baseHeight`. -/
def baseHeight : Nat := 31

/-- Method `addWallBlock`: a rectangular block of walls, clipped to the interior. -/
def addWallBlock (g : Grid) (startX startY blockWidth blockHeight
    mazeWidth mazeHeight : Nat) : Grid :=
  (List.range blockHeight).foldl
    (fun g dy =>
      (List.range blockWidth).foldl
        (fun g dx =>
          let x := startX + dx
          let y := startY + dy
          if 0 < x ∧ x < mazeWidth - 1 ∧ 0 < y ∧ y < mazeHeight - 1 then
            setCell g x y true
          else g)
        g)
    g

/-- Method `addWallBlocks`: the fourteen fixed blocks, in source order. -/
def addWallBlocks (g : Grid) (width height : Nat) : Grid :=
  let g := addWallBlock g 3 2 4 3 width height
  let g := addWallBlock g (width - 7) 2 4 3 width height
  let g := addWallBlock g 8 2 3 3 width height
  let g := addWallBlock g (width - 11) 2 3 3 width height
  let g := addWallBlock g 3 7 4 2 width height
  let g := addWallBlock g 3 12 4 3 width height
  let g := addWallBlock g (width - 7) 7 4 2 width height
  let g := addWallBlock g (width - 7) 12 4 3 width height
  let g := addWallBlock g 3 20 4 3 width height
  let g := addWallBlock g (width - 7) 20 4 3 width height
  let g := addWallBlock g 8 20 3 3 width height
  let g := addWallBlock g (width - 11) 20 3 3 width height
  let g := addWallBlock g 3 26 4 2 width height
  addWallBlock g (width - 7) 26 4 2 width height

/-- Method `createClassicMazeLayout`: corridors, ghost house, spawn area, blocks. -/
def createClassicMazeLayout (g0 : Grid) (width height : Nat) : Grid :=
  let corridorRows : List Nat := [1, 5, 9, 11, 15, 19, 23, 25, 29]
  let g1 := corridorRows.foldl
    (fun g y =>
      if y < height then
        (List.range' 1 (width - 2)).foldl (fun g x => setCell g x y false) g
      else g)
    g0
  let corridorCols : List Nat := [1, 6, 12, 15, 21, 26]
  let g2 := corridorCols.foldl
    (fun g x =>
      if x < width then
        (List.range' 1 (height - 2)).foldl (fun g y => setCell g x y false) g
      else g)
    g1
  -- left side vertical corridors, y = 1..9
  let g3 := (List.range' 1 9).foldl
    (fun g y => setCell (setCell g 1 y false) 6 y false) g2
  -- right side vertical corridors, y = 1..9
  let g4 := (List.range' 1 9).foldl
    (fun g y => setCell (setCell g (width - 2) y false) (width - 7) y false) g3
  -- middle vertical corridors, y = 5..height-6
  let g5 := (List.range' 5 (height - 10)).foldl
    (fun g y => setCell (setCell g (width / 2) y false) (width / 2 - 1) y false) g4
  -- ghost house area: dy in [-4,4], dx in [-3,3], interior-guarded
  let ghostHouseY := height / 2
  let ghostHouseX := width / 2
  let g6 := (List.range 9).foldl
    (fun g i =>
      (List.range 7).foldl
        (fun g j =>
          let y : Int := (ghostHouseY : Int) + ((i : Int) - 4)
          let x : Int := (ghostHouseX : Int) + ((j : Int) - 3)
          if 0 < y ∧ y < (height : Int) - 1 ∧ 0 < x ∧ x < (width : Int) - 1 then
            setCell g x.toNat y.toNat false
          else g)
        g)
    g5
  -- vertical exit paths from the ghost house, y = 11..ghostHouseY
  let g7 := (List.range' 11 (ghostHouseY + 1 - 11)).foldl
    (fun g y => setCell (setCell g ghostHouseX y false) (ghostHouseX - 1) y false) g6
  -- and y = ghostHouseY..19
  let g8 := (List.range' ghostHouseY (20 - ghostHouseY)).foldl
    (fun g y => setCell (setCell g ghostHouseX y false) (ghostHouseX - 1) y false) g7
  -- bottom area for the player spawn
  let playerAreaY := height - 2
  let g9 := (List.range' 1 (width - 2)).foldl
    (fun g x => setCell (setCell g x playerAreaY false) x (playerAreaY - 1) false) g8
  addWallBlocks g9 width height

/-- Method `createTunnels` of the classic generator: clear three cells on each side
of the tunnel row and return the two mutually inverse tunnel pairs. -/
def createTunnels (g : Grid) (width height : Nat) : Grid × List TunnelPair :=
  let tunnelY := height / 2
  let g1 := setCell g 0 tunnelY false
  let g2 := setCell g1 (width - 1) tunnelY false
  let g3 := (List.range 3).foldl
    (fun g x => setCell (setCell g x tunnelY false) (width - 1 - x) tunnelY false) g2
  let leftTunnel : Position := ⟨0, tunnelY⟩
  let rightTunnel : Position := ⟨(width : Int) - 1, tunnelY⟩
  (g3, [⟨leftTunnel, rightTunnel⟩, ⟨rightTunnel, leftTunnel⟩])

/-- Method `placeDots`: a dot on every walkable cell except the player spawn and a
Manhattan radius-2 neighbourhood of the ghost spawn. -/
def placeDots (walls : Grid) (width height : Nat)
    (playerSpawn ghostSpawn : Position) : Grid :=
  let d0 : Grid := List.replicate height (List.replicate width false)
  (List.range height).foldl
    (fun d y =>
      (List.range width).foldl
        (fun d x =>
          if getCell walls x y true then d
          else
            let distToGhost :=
              ((x : Int) - ghostSpawn.x).natAbs + ((y : Int) - ghostSpawn.y).natAbs
            if ((x : Int) = playerSpawn.x ∧ (y : Int) = playerSpawn.y) ∨
                distToGhost ≤ 2 then d
            else setCell d x y true)
        d)
    d0

/-- Method `placePowerPellets`: the four near-corner cells, kept when not walls. -/
def placePowerPellets (walls : Grid) (width height : Nat) : List Position :=
  let corners : List Position :=
    [⟨1, 3⟩, ⟨(width : Int) - 2, 3⟩, ⟨1, (height : Int) - 4⟩,
      ⟨(width : Int) - 2, (height : Int) - 4⟩]
  corners.filter (fun c => !getCell walls c.x.toNat c.y.toNat true)

/-- Method `MazeGenerator.generateMaze` of the current (classic-layout) revision;
the level argument is unused by the source. -/
def generateMaze (_level : Nat) : MazeData :=
  let width := baseWidth
  let height := baseHeight
  let walls0 : Grid := List.replicate height (List.replicate width true)
  let walls1 := createClassicMazeLayout walls0 width height
  let tr := createTunnels walls1 width height
  let psx := width / 2
  let psy := height - 2
  let gsx := width / 2
  let gsy := height / 2
  let playerSpawn : Position := ⟨psx, psy⟩
  let ghostSpawn : Position := ⟨gsx, gsy⟩
  let walls2 := setCell tr.1 psx psy false
  let walls3 := setCell walls2 gsx gsy false
  { width := width, height := height, walls := walls3,
    dots := placeDots walls3 width height playerSpawn ghostSpawn,
    powerPellets := placePowerPellets walls3 width height,
    tunnels := tr.2, ghostSpawn := ghostSpawn, playerSpawn := playerSpawn }

end WebPacman.MazeGenerator

namespace WebPacman.MazeGeneratorSubdiv

/-- Loop `y = start; y < stop; y += step` as the list of visited values. -/
def stepRange (start stop step : Nat) : List Nat :=
  (List.range ((stop - start + step - 1) / step)).map (fun i => start + step * i)

/-- Method `createBorderWalls` of the subdivision revision. -/
def createBorderWalls (g : Grid) (width height : Nat) : Grid :=
  let g1 := (List.range width).foldl
    (fun g x => setCell (setCell g x 0 true) x (height - 1) true) g
  (List.range height).foldl
    (fun g y => setCell (setCell g 0 y true) (width - 1) y true) g1

/-- Method `generateMazeStructure`: random wall placement plus optional corridors.
Each `Math.random()` call site is one sample of `rand`, consumed in call
order: sample `dy * w + dx` for cell `(dx, dy)`, then `w * h` and
`w * h + 1` for the two corridor decisions. -/
def generateMazeStructure (g : Grid) (x y w h level : Nat) (rand : Nat → Rat) :
    Grid :=
  if w < 3 ∨ h < 3 then g
  else
    let complexity := min (0.3 + (level : Rat) * 0.05) 0.7
    let density := min (0.2 + (level : Rat) * 0.03) 0.5
    let g1 := (List.range h).foldl
      (fun g dy =>
        (List.range w).foldl
          (fun g dx =>
            if rand (dy * w + dx) < density then
              let wallX := x + dx
              let wallY := y + dy
              if 0 < wallX ∧ wallX < (g.getD 0 []).length - 1 ∧
                  0 < wallY ∧ wallY < g.length - 1 then
                setCell g wallX wallY true
              else g
            else g)
          g)
      g
    let g2 := if rand (w * h) < complexity then
        let corridorY := y + h / 2
        (List.range w).foldl (fun g dx => setCell g (x + dx) corridorY false) g1
      else g1
    if rand (w * h + 1) < complexity then
      let corridorX := x + w / 2
      (List.range h).foldl (fun g dy => setCell g corridorX (y + dy) false) g2
    else g2

/-- Method `createTunnels` of the subdivision revision: clears only the two edge
cells of the tunnel row. -/
def createTunnels (g : Grid) (width height : Nat) : Grid × List TunnelPair :=
  let tunnelY := height / 2
  let g1 := setCell g 0 tunnelY false
  let g2 := setCell g1 (width - 1) tunnelY false
  let leftTunnel : Position := ⟨0, tunnelY⟩
  let rightTunnel : Position := ⟨(width : Int) - 1, tunnelY⟩
  (g2, [⟨leftTunnel, rightTunnel⟩, ⟨rightTunnel, leftTunnel⟩])

/-- Method `placeDots` of the subdivision revision: a dot on every non-wall cell
other than the two spawn cells. -/
def placeDots (walls : Grid) (width height : Nat)
    (playerSpawn ghostSpawn : Position) : Grid :=
  let d0 : Grid := List.replicate height (List.replicate width false)
  (List.range height).foldl
    (fun d y =>
      (List.range width).foldl
        (fun d x =>
          if getCell walls x y true = false ∧
              ¬((x : Int) = playerSpawn.x ∧ (y : Int) = playerSpawn.y) ∧
              ¬((x : Int) = ghostSpawn.x ∧ (y : Int) = ghostSpawn.y) then
            setCell d x y true
          else d)
        d)
    d0

/-- Method `placePowerPellets` of the subdivision revision. -/
def placePowerPellets (walls : Grid) (width height : Nat) : List Position :=
  let corners : List Position :=
    [⟨2, 2⟩, ⟨(width : Int) - 3, 2⟩, ⟨2, (height : Int) - 3⟩,
      ⟨(width : Int) - 3, (height : Int) - 3⟩]
  corners.filter (fun c => !getCell walls c.x.toNat c.y.toNat true)

/-- Method `generateSimpleMaze`: the known-connected fallback layout. -/
def generateSimpleMaze (_level : Nat) : MazeData :=
  let width := MazeGenerator.baseWidth
  let height := MazeGenerator.baseHeight
  let walls0 : Grid := List.replicate height (List.replicate width false)
  let walls1 := createBorderWalls walls0 width height
  let walls2 := (stepRange 3 (height - 3) 4).foldl
    (fun g y =>
      (stepRange 3 (width - 3) 4).foldl
        (fun g x => setCell (setCell g x y true) (x + 1) y true) g)
    walls1
  let tr := createTunnels walls2 width height
  let psx := width / 2
  let psy := height - 2
  let gsx := width / 2
  let gsy := height / 2
  let playerSpawn : Position := ⟨psx, psy⟩
  let ghostSpawn : Position := ⟨gsx, gsy⟩
  let walls3 := setCell tr.1 psx psy false
  let walls4 := setCell walls3 gsx gsy false
  { width := width, height := height, walls := walls4,
    dots := placeDots walls4 width height playerSpawn ghostSpawn,
    powerPellets := placePowerPellets walls4 width height,
    tunnels := tr.2, ghostSpawn := ghostSpawn, playerSpawn := playerSpawn }

/-- Method `generateMaze` of the subdivision revision: stochastic construction,
connectivity validation, and fallback to `generateSimpleMaze`. -/
def generateMaze (level : Nat) (rand : Nat → Rat) : MazeData :=
  let width := MazeGenerator.baseWidth
  let height := MazeGenerator.baseHeight
  let walls0 : Grid := List.replicate height (List.replicate width false)
  let walls1 := createBorderWalls walls0 width height
  let walls2 := generateMazeStructure walls1 1 1 (width - 2) (height - 2) level rand
  let tr := createTunnels walls2 width height
  let psx := width / 2
  let psy := height - 2
  let gsx := width / 2
  let gsy := height / 2
  let playerSpawn : Position := ⟨psx, psy⟩
  let ghostSpawn : Position := ⟨gsx, gsy⟩
  let walls3 := setCell tr.1 psx psy false
  let walls4 := setCell walls3 gsx gsy false
  if validateMaze walls4 playerSpawn width height then
    { width := width, height := height, walls := walls4,
      dots := placeDots walls4 width height playerSpawn ghostSpawn,
      powerPellets := placePowerPellets walls4 width height,
      tunnels := tr.2, ghostSpawn := ghostSpawn, playerSpawn := playerSpawn }
  else generateSimpleMaze level

end WebPacman.MazeGeneratorSubdiv

namespace WebPacman.GameScene

/-- Type `Direction` from types.ts. -/
inductive Direction where
  | up
  | down
  | left
  | right
deriving DecidableEq

/-- Type `GhostMode` from types.ts. -/
inductive GhostMode where
  | scatter
  | chase
  | frightened
  | eaten
deriving DecidableEq

/-- Type `GhostColor` from types.ts. -/
inductive GhostColor where
  | red
  | pink
  | cyan
  | orange
deriving DecidableEq

/-- Status values of `gameStatus` of the `GameState` interface. -/
inductive GameStatus where
  | playing
  | paused
  | gameOver
deriving DecidableEq

/-- The per-ghost state the embedded logic reads and writes: colour, mode,
heading, scatter corner, and the sprite's pixel coordinates. -/
structure GhostState where
  color : GhostColor
  mode : GhostMode
  direction : Direction
  scatterTarget : Position
  x : Rat
  y : Rat
deriving DecidableEq

/-- Interface `GameState` of GameScene.ts. -/
structure GameState where
  score : Int
  lives : Int
  level : Nat
  powerMode : Bool
  powerModeTimer : Rat
  gameStatus : GameStatus
deriving DecidableEq

/-- Constant `TILE_SIZE`. -/
def TILE_SIZE : Rat := 16

/-- Constant `BASE_GHOST_SPEED`. -/
def BASE_GHOST_SPEED : Rat := 60

/-- Constant `BASE_GHOST_FRIGHTENED_SPEED`. -/
def BASE_GHOST_FRIGHTENED_SPEED : Rat := 40

/-- Constant `BASE_POWER_PELLET_DURATION` (ms). -/
def BASE_POWER_PELLET_DURATION : Rat := 10000

/-- Method `calculateGhostSpeed`: 5 percent faster per level, capped at 1.5 times
the base speed. -/
def calculateGhostSpeed (level : Nat) : Rat :=
  BASE_GHOST_SPEED * min (1 + ((level : Rat) - 1) * 0.05) 1.5

/-- Method `calculateGhostFrightenedSpeed`: same multiplier on the lower base. -/
def calculateGhostFrightenedSpeed (level : Nat) : Rat :=
  BASE_GHOST_FRIGHTENED_SPEED * min (1 + ((level : Rat) - 1) * 0.05) 1.5

/-- Method `calculatePowerPelletDuration`: 10 percent shorter per level, floored at
0.3 times the base duration. -/
def calculatePowerPelletDuration (level : Nat) : Rat :=
  BASE_POWER_PELLET_DURATION * max (1 - ((level : Rat) - 1) * 0.1) 0.3

/-- The scene state touched by the power-mode logic: the game state and the
ghosts. -/
structure SceneState where
  gameState : GameState
  ghosts : List GhostState
deriving DecidableEq

/-- Method `enterPowerMode`: set the flag, reset the timer to the level-scaled
duration, and frighten every ghost that is not `eaten`. -/
def enterPowerMode (s : SceneState) : SceneState :=
  { gameState := { s.gameState with
      powerMode := true,
      powerModeTimer := calculatePowerPelletDuration s.gameState.level },
    ghosts := s.ghosts.map (fun g =>
      if g.mode ≠ GhostMode.eaten then { g with mode := GhostMode.frightened }
      else g) }

/-- Method `exitPowerMode`: clear the flag and the timer, return `frightened`
ghosts to `chase`. -/
def exitPowerMode (s : SceneState) : SceneState :=
  { gameState := { s.gameState with powerMode := false, powerModeTimer := 0 },
    ghosts := s.ghosts.map (fun g =>
      if g.mode = GhostMode.frightened then { g with mode := GhostMode.chase }
      else g) }

/-- The power-mode countdown fragment of `update`: subtract `delta` from the
timer and exit power mode when it drops to zero or below. -/
def updatePowerModeTimer (s : SceneState) (delta : Rat) : SceneState :=
  if s.gameState.powerMode then
    let s1 : SceneState :=
      { s with gameState := { s.gameState with
          powerModeTimer := s.gameState.powerModeTimer - delta } }
    if s1.gameState.powerModeTimer ≤ 0 then exitPowerMode s1 else s1
  else s

/-- Method `respawnGhost`: back to the ghost-spawn tile centre, `scatter`, heading
left. -/
def respawnGhost (ghostSpawn : Position) (g : GhostState) : GhostState :=
  { g with
    x := (ghostSpawn.x : Rat) * TILE_SIZE + TILE_SIZE / 2,
    y := (ghostSpawn.y : Rat) * TILE_SIZE + TILE_SIZE / 2,
    mode := GhostMode.scatter,
    direction := Direction.left }

/-- Result of a player-ghost collision: the updated game state, the updated
ghost, and the delay (ms) of a scheduled ghost respawn, if any. -/
structure GhostCollisionOutcome where
  state : GameState
  ghost : GhostState
  respawnDelay : Option Rat
deriving DecidableEq

/-- Method `eatGhost`: flat 200 points, ghost to `eaten`, respawn scheduled after
3000 ms. -/
def eatGhost (st : GameState) (g : GhostState) : GhostCollisionOutcome :=
  { state := { st with score := st.score + 200 },
    ghost := { g with mode := GhostMode.eaten },
    respawnDelay := some 3000 }

/-- Method `gameOver`: status to `gameOver`, lives cleared to 0. -/
def gameOver (st : GameState) : GameState :=
  { st with gameStatus := GameStatus.gameOver, lives := 0 }

/-- Method `loseLife`: decrement lives, and end the game when they are used up. -/
def loseLife (st : GameState) : GameState :=
  let st1 : GameState := { st with lives := st.lives - 1 }
  if st1.lives ≤ 0 then gameOver st1 else st1

/-- Method `handleGhostCollision`: no-op unless playing; eat a frightened ghost in
power mode; lose a life to a `chase`/`scatter` ghost. -/
def handleGhostCollision (st : GameState) (g : GhostState) :
    GhostCollisionOutcome :=
  if st.gameStatus ≠ GameStatus.playing then
    { state := st, ghost := g, respawnDelay := none }
  else if st.powerMode = true ∧ g.mode = GhostMode.frightened then
    eatGhost st g
  else if g.mode ≠ GhostMode.frightened ∧ g.mode ≠ GhostMode.eaten then
    { state := loseLife st, ghost := g, respawnDelay := none }
  else
    { state := st, ghost := g, respawnDelay := none }

/-- Method `getOppositeDirection`. -/
def getOppositeDirection : Direction → Direction
  | Direction.up => Direction.down
  | Direction.down => Direction.up
  | Direction.left => Direction.right
  | Direction.right => Direction.left

/-- The tile one step from `(tileX, tileY)` in direction `d`. -/
def stepTile (tileX tileY : Int) : Direction → Int × Int
  | Direction.left => (tileX - 1, tileY)
  | Direction.right => (tileX + 1, tileY)
  | Direction.up => (tileX, tileY - 1)
  | Direction.down => (tileX, tileY + 1)

/-- Method `canGhostMove`: the neighbouring tile is in bounds and holds no wall
tile (the wall layer has a tile exactly on the wall cells of the maze). -/
def canGhostMove (walls : Grid) (width height : Nat) (tileX tileY : Int)
    (dir : Direction) : Bool :=
  let n := stepTile tileX tileY dir
  if n.1 < 0 ∨ (width : Int) ≤ n.1 ∨ n.2 < 0 ∨ (height : Int) ≤ n.2 then false
  else !getCell walls n.1.toNat n.2.toNat true

/-- The fixed direction priority order of the ghost AI. -/
def allDirections : List Direction :=
  [Direction.up, Direction.down, Direction.left, Direction.right]

/-- Method `getRandomDirection` of the extended GameScene revision: a uniformly
random open direction, the reverse allowed only as a last resort.
`Math.floor(Math.random() * length)` is modelled by `randIdx % length`. -/
def getRandomDirection (walls : Grid) (width height : Nat) (tileX tileY : Int)
    (currentDirection : Direction) (randIdx : Nat) : Direction :=
  let oppositeDirection := getOppositeDirection currentDirection
  let availableDirections := allDirections.filter (fun dir =>
    decide (dir ≠ oppositeDirection) && canGhostMove walls width height tileX tileY dir)
  if availableDirections.isEmpty then getOppositeDirection currentDirection
  else availableDirections.getD (randIdx % availableDirections.length) currentDirection

/-- The context `chooseGhostDirection` reads: the maze, the other ghosts,
and the player's sprite position and heading. -/
structure GhostAiCtx where
  walls : Grid
  width : Nat
  height : Nat
  ghostSpawn : Position
  ghosts : List GhostState
  playerX : Rat
  playerY : Rat
  playerDir : Option Direction
deriving DecidableEq

/-- Squared distance between tiles; `Math.sqrt` is strictly monotone on its
nonnegative arguments and the source only compares distances, so comparing
squares is exact. -/
def distSq (a b : Int × Int) : Int :=
  (a.1 - b.1) ^ 2 + (a.2 - b.2) ^ 2

/-- The best-direction fold of `chooseGhostDirection`: first strict
improvement wins, starting from an infinite best distance. -/
def pickBestDirection (tileX tileY : Int) (target : Int × Int)
    (dirs : List Direction) : Option Direction :=
  (dirs.foldl
    (fun acc dir =>
      let next := stepTile tileX tileY dir
      let distance := distSq next target
      match acc with
      | none => some (dir, distance)
      | some (bd, bdist) =>
        if distance < bdist then some (dir, distance) else some (bd, bdist))
    none).map Prod.fst

/-- Method `chooseGhostDirection` of the extended GameScene revision: per-colour
chase targets, scatter corners, random frightened movement, spawn-seeking
when eaten; reversal is excluded unless it is the only open move. -/
def chooseGhostDirection (ctx : GhostAiCtx) (ghost : GhostState)
    (tileX tileY : Int) (randIdx : Nat) : Direction :=
  let playerTileX : Int := ⌊ctx.playerX / TILE_SIZE⌋
  let playerTileY : Int := ⌊ctx.playerY / TILE_SIZE⌋
  if ghost.mode = GhostMode.frightened then
    getRandomDirection ctx.walls ctx.width ctx.height tileX tileY ghost.direction randIdx
  else
    let target : Int × Int :=
      if ghost.mode = GhostMode.chase then
        match ghost.color with
        | GhostColor.red => (playerTileX, playerTileY)
        | GhostColor.pink =>
          match ctx.playerDir with
          | some Direction.up => (playerTileX, playerTileY - 4)
          | some Direction.down => (playerTileX, playerTileY + 4)
          | some Direction.left => (playerTileX - 4, playerTileY)
          | some Direction.right => (playerTileX + 4, playerTileY)
          | none => (playerTileX, playerTileY)
        | GhostColor.cyan =>
          let aheadX := playerTileX +
            (match ctx.playerDir with
             | some Direction.right => 2
             | some Direction.left => -2
             | _ => 0)
          let aheadY := playerTileY +
            (match ctx.playerDir with
             | some Direction.down => 2
             | some Direction.up => -2
             | _ => 0)
          match ctx.ghosts.find? (fun g => g.color = GhostColor.red) with
          | some redGhost =>
            let redTileX : Int := ⌊redGhost.x / TILE_SIZE⌋
            let redTileY : Int := ⌊redGhost.y / TILE_SIZE⌋
            (aheadX + (aheadX - redTileX), aheadY + (aheadY - redTileY))
          | none => (playerTileX, playerTileY)
        | GhostColor.orange =>
          if distSq (tileX, tileY) (playerTileX, playerTileY) > 64 then
            (playerTileX, playerTileY)
          else (ghost.scatterTarget.x, ghost.scatterTarget.y)
      else if ghost.mode = GhostMode.scatter then
        (ghost.scatterTarget.x, ghost.scatterTarget.y)
      else
        (ctx.ghostSpawn.x, ctx.ghostSpawn.y)
    let targetX := max 0 (min ((ctx.width : Int) - 1) target.1)
    let targetY := max 0 (min ((ctx.height : Int) - 1) target.2)
    let oppositeDirection := getOppositeDirection ghost.direction
    let forward := allDirections.filter (fun dir =>
      decide (dir ≠ oppositeDirection) &&
        canGhostMove ctx.walls ctx.width ctx.height tileX tileY dir)
    let availableDirections :=
      if forward.isEmpty then
        allDirections.filter (fun dir =>
          canGhostMove ctx.walls ctx.width ctx.height tileX tileY dir)
      else forward
    if availableDirections.isEmpty then ghost.direction
    else
      match pickBestDirection tileX tileY (targetX, targetY) availableDirections with
      | some dir => dir
      | none => ghost.direction

end WebPacman.GameScene

namespace WebPacman
/-- Position `p` is inside the grid (the BFS bounds check). -/
def posInB (width height : Nat) (p : Position) : Prop :=
  0 ≤ p.x ∧ p.x < (width : Int) ∧ 0 ≤ p.y ∧ p.y < (height : Int)

/-- All cells of the grid, row-major. -/
def gridCells (width height : Nat) : Finset (Nat × Nat) :=
  Finset.range height ×ˢ Finset.range width

/-- The loop invariant of the BFS of `validateMaze`, for start cell `s`. -/
structure BfsInv (walls : Grid) (width height : Nat) (s : Nat × Nat)
    (st : BfsState) : Prop where
  queue_inb : ∀ p ∈ st.queue, posInB width height p
  queue_mem : ∀ p ∈ st.queue, cellOf p ∈ st.visited
  vis_reach : ∀ z ∈ st.visited, Reach walls width height s z
  vis_open : ∀ z ∈ st.visited, z = s ∨ openCell walls width height z
  vis_closed : ∀ z ∈ st.visited, (∀ p ∈ st.queue, cellOf p ≠ z) →
    ∀ r, adjStep walls width height z r → r ∈ st.visited
  count_card : st.count = st.visited.card
  start_mem : s ∈ st.visited

/-- Cell `(y, x)` is open, as a Boolean. -/
def isOpenCellB (walls : Grid) (c : Nat × Nat) : Bool :=
  !getCell walls c.2 c.1 true

/-- All grid cells, row-major, in iteration order of the counting loops. -/
def cellList (width height : Nat) : List (Nat × Nat) :=
  (List.range height) ×ˢ (List.range width)

/-- The in-bounds non-wall cells, as a finite set. -/
def openCells (walls : Grid) (width height : Nat) : Finset (Nat × Nat) :=
  ((cellList width height).filter (isOpenCellB walls)).toFinset

instance decNbr (a b : Nat × Nat) : Decidable (nbr a b) := by
  unfold nbr
  exact inferInstance

instance decPosInB (width height : Nat) (p : Position) :
    Decidable (posInB width height p) := by
  unfold posInB
  exact inferInstance

instance decInB (width height : Nat) (c : Nat × Nat) :
    Decidable (inB width height c) := by
  unfold inB
  exact inferInstance

instance decOpenCell (walls : Grid) (width height : Nat) (c : Nat × Nat) :
    Decidable (openCell walls width height c) := by
  unfold openCell
  exact inferInstance

/-- The wall matrix of the classic layout, as a literal (proved equal to the
generator output in `classic_generateMaze_eq`). -/
def classicWalls : Grid :=
  [[true, true, true, true, true, true, true, true, true, true, true, true, true, true, true, true, true, true, true, true, true, true, true, true, true, true, true, true],
   [true, false, false, false, false, false, false, false, false, false, false, false, false, false, false, false, false, false, false, false, false, false, false, false, false, false, false, true],
   [true, false, true, true, true, true, true, true, true, true, true, true, false, true, true, false, true, true, true, true, true, true, true, true, true, true, false, true],
   [true, false, true, true, true, true, true, true, true, true, true, true, false, true, true, false, true, true, true, true, true, true, true, true, true, true, false, true],
   [true, false, true, true, true, true, true, true, true, true, true, true, false, true, true, false, true, true, true, true, true, true, true, true, true, true, false, true],
   [true, false, false, false, false, false, false, false, false, false, false, false, false, false, false, false, false, false, false, false, false, false, false, false, false, false, false, true],
   [true, false, true, true, true, true, false, true, true, true, true, true, false, false, false, false, true, true, true, true, true, false, true, true, true, true, false, true],
   [true, false, true, true, true, true, true, true, true, true, true, true, false, false, false, false, true, true, true, true, true, true, true, true, true, true, false, true],
   [true, false, true, true, true, true, true, true, true, true, true, true, false, false, false, false, true, true, true, true, true, true, true, true, true, true, false, true],
   [true, false, false, false, false, false, false, false, false, false, false, false, false, false, false, false, false, false, false, false, false, false, false, false, false, false, false, true],
   [true, false, true, true, true, true, false, true, true, true, true, true, false, false, false, false, true, true, true, true, true, false, true, true, true, true, false, true],
   [true, false, false, false, false, false, false, false, false, false, false, false, false, false, false, false, false, false, false, false, false, false, false, false, false, false, false, true],
   [true, false, true, true, true, true, true, true, true, true, true, false, false, false, false, false, false, false, true, true, true, true, true, true, true, true, false, true],
   [true, false, true, true, true, true, true, true, true, true, true, false, false, false, false, false, false, false, true, true, true, true, true, true, true, true, false, true],
   [true, false, true, true, true, true, true, true, true, true, true, false, false, false, false, false, false, false, true, true, true, true, true, true, true, true, false, true],
   [false, false, false, false, false, false, false, false, false, false, false, false, false, false, false, false, false, false, false, false, false, false, false, false, false, false, false, false],
   [true, false, true, true, true, true, false, true, true, true, true, false, false, false, false, false, false, false, true, true, true, false, true, true, true, true, false, true],
   [true, false, true, true, true, true, false, true, true, true, true, false, false, false, false, false, false, false, true, true, true, false, true, true, true, true, false, true],
   [true, false, true, true, true, true, false, true, true, true, true, false, false, false, false, false, false, false, true, true, true, false, true, true, true, true, false, true],
   [true, false, false, false, false, false, false, false, false, false, false, false, false, false, false, false, false, false, false, false, false, false, false, false, false, false, false, true],
   [true, false, true, true, true, true, true, true, true, true, true, true, false, false, false, false, true, true, true, true, true, true, true, true, true, true, false, true],
   [true, false, true, true, true, true, true, true, true, true, true, true, false, false, false, false, true, true, true, true, true, true, true, true, true, true, false, true],
   [true, false, true, true, true, true, true, true, true, true, true, true, false, false, false, false, true, true, true, true, true, true, true, true, true, true, false, true],
   [true, false, false, false, false, false, false, false, false, false, false, false, false, false, false, false, false, false, false, false, false, false, false, false, false, false, false, true],
   [true, false, true, true, true, true, false, true, true, true, true, true, false, false, false, false, true, true, true, true, true, false, true, true, true, true, false, true],
   [true, false, false, false, false, false, false, false, false, false, false, false, false, false, false, false, false, false, false, false, false, false, false, false, false, false, false, true],
   [true, false, true, true, true, true, true, true, true, true, true, true, false, true, true, false, true, true, true, true, true, true, true, true, true, true, false, true],
   [true, false, true, true, true, true, true, true, true, true, true, true, false, true, true, false, true, true, true, true, true, true, true, true, true, true, false, true],
   [true, false, false, false, false, false, false, false, false, false, false, false, false, false, false, false, false, false, false, false, false, false, false, false, false, false, false, true],
   [true, false, false, false, false, false, false, false, false, false, false, false, false, false, false, false, false, false, false, false, false, false, false, false, false, false, false, true],
   [true, true, true, true, true, true, true, true, true, true, true, true, true, true, true, true, true, true, true, true, true, true, true, true, true, true, true, true]]

/-- The dot matrix of the classic layout, as a literal. -/
def classicDots : Grid :=
  [[false, false, false, false, false, false, false, false, false, false, false, false, false, false, false, false, false, false, false, false, false, false, false, false, false, false, false, false],
   [false, true, true, true, true, true, true, true, true, true, true, true, true, true, true, true, true, true, true, true, true, true, true, true, true, true, true, false],
   [false, true, false, false, false, false, false, false, false, false, false, false, true, false, false, true, false, false, false, false, false, false, false, false, false, false, true, false],
   [false, true, false, false, false, false, false, false, false, false, false, false, true, false, false, true, false, false, false, false, false, false, false, false, false, false, true, false],
   [false, true, false, false, false, false, false, false, false, false, false, false, true, false, false, true, false, false, false, false, false, false, false, false, false, false, true, false],
   [false, true, true, true, true, true, true, true, true, true, true, true, true, true, true, true, true, true, true, true, true, true, true, true, true, true, true, false],
   [false, true, false, false, false, false, true, false, false, false, false, false, true, true, true, true, false, false, false, false, false, true, false, false, false, false, true, false],
   [false, true, false, false, false, false, false, false, false, false, false, false, true, true, true, true, false, false, false, false, false, false, false, false, false, false, true, false],
   [false, true, false, false, false, false, false, false, false, false, false, false, true, true, true, true, false, false, false, false, false, false, false, false, false, false, true, false],
   [false, true, true, true, true, true, true, true, true, true, true, true, true, true, true, true, true, true, true, true, true, true, true, true, true, true, true, false],
   [false, true, false, false, false, false, true, false, false, false, false, false, true, true, true, true, false, false, false, false, false, true, false, false, false, false, true, false],
   [false, true, true, true, true, true, true, true, true, true, true, true, true, true, true, true, true, true, true, true, true, true, true, true, true, true, true, false],
   [false, true, false, false, false, false, false, false, false, false, false, true, true, true, true, true, true, true, false, false, false, false, false, false, false, false, true, false],
   [false, true, false, false, false, false, false, false, false, false, false, true, true, true, false, true, true, true, false, false, false, false, false, false, false, false, true, false],
   [false, true, false, false, false, false, false, false, false, false, false, true, true, false, false, false, true, true, false, false, false, false, false, false, false, false, true, false],
   [true, true, true, true, true, true, true, true, true, true, true, true, false, false, false, false, false, true, true, true, true, true, true, true, true, true, true, true],
   [false, true, false, false, false, false, true, false, false, false, false, true, true, false, false, false, true, true, false, false, false, true, false, false, false, false, true, false],
   [false, true, false, false, false, false, true, false, false, false, false, true, true, true, false, true, true, true, false, false, false, true, false, false, false, false, true, false],
   [false, true, false, false, false, false, true, false, false, false, false, true, true, true, true, true, true, true, false, false, false, true, false, false, false, false, true, false],
   [false, true, true, true, true, true, true, true, true, true, true, true, true, true, true, true, true, true, true, true, true, true, true, true, true, true, true, false],
   [false, true, false, false, false, false, false, false, false, false, false, false, true, true, true, true, false, false, false, false, false, false, false, false, false, false, true, false],
   [false, true, false, false, false, false, false, false, false, false, false, false, true, true, true, true, false, false, false, false, false, false, false, false, false, false, true, false],
   [false, true, false, false, false, false, false, false, false, false, false, false, true, true, true, true, false, false, false, false, false, false, false, false, false, false, true, false],
   [false, true, true, true, true, true, true, true, true, true, true, true, true, true, true, true, true, true, true, true, true, true, true, true, true, true, true, false],
   [false, true, false, false, false, false, true, false, false, false, false, false, true, true, true, true, false, false, false, false, false, true, false, false, false, false, true, false],
   [false, true, true, true, true, true, true, true, true, true, true, true, true, true, true, true, true, true, true, true, true, true, true, true, true, true, true, false],
   [false, true, false, false, false, false, false, false, false, false, false, false, true, false, false, true, false, false, false, false, false, false, false, false, false, false, true, false],
   [false, true, false, false, false, false, false, false, false, false, false, false, true, false, false, true, false, false, false, false, false, false, false, false, false, false, true, false],
   [false, true, true, true, true, true, true, true, true, true, true, true, true, true, true, true, true, true, true, true, true, true, true, true, true, true, true, false],
   [false, true, true, true, true, true, true, true, true, true, true, true, true, true, false, true, true, true, true, true, true, true, true, true, true, true, true, false],
   [false, false, false, false, false, false, false, false, false, false, false, false, false, false, false, false, false, false, false, false, false, false, false, false, false, false, false, false]]

/-- The wall matrix of the fallback simple layout, as a literal. -/
def simpleWalls : Grid :=
  [[true, true, true, true, true, true, true, true, true, true, true, true, true, true, true, true, true, true, true, true, true, true, true, true, true, true, true, true],
   [true, false, false, false, false, false, false, false, false, false, false, false, false, false, false, false, false, false, false, false, false, false, false, false, false, false, false, true],
   [true, false, false, false, false, false, false, false, false, false, false, false, false, false, false, false, false, false, false, false, false, false, false, false, false, false, false, true],
   [true, false, false, true, true, false, false, true, true, false, false, true, true, false, false, true, true, false, false, true, true, false, false, true, true, false, false, true],
   [true, false, false, false, false, false, false, false, false, false, false, false, false, false, false, false, false, false, false, false, false, false, false, false, false, false, false, true],
   [true, false, false, false, false, false, false, false, false, false, false, false, false, false, false, false, false, false, false, false, false, false, false, false, false, false, false, true],
   [true, false, false, false, false, false, false, false, false, false, false, false, false, false, false, false, false, false, false, false, false, false, false, false, false, false, false, true],
   [true, false, false, true, true, false, false, true, true, false, false, true, true, false, false, true, true, false, false, true, true, false, false, true, true, false, false, true],
   [true, false, false, false, false, false, false, false, false, false, false, false, false, false, false, false, false, false, false, false, false, false, false, false, false, false, false, true],
   [true, false, false, false, false, false, false, false, false, false, false, false, false, false, false, false, false, false, false, false, false, false, false, false, false, false, false, true],
   [true, false, false, false, false, false, false, false, false, false, false, false, false, false, false, false, false, false, false, false, false, false, false, false, false, false, false, true],
   [true, false, false, true, true, false, false, true, true, false, false, true, true, false, false, true, true, false, false, true, true, false, false, true, true, false, false, true],
   [true, false, false, false, false, false, false, false, false, false, false, false, false, false, false, false, false, false, false, false, false, false, false, false, false, false, false, true],
   [true, false, false, false, false, false, false, false, false, false, false, false, false, false, false, false, false, false, false, false, false, false, false, false, false, false, false, true],
   [true, false, false, false, false, false, false, false, false, false, false, false, false, false, false, false, false, false, false, false, false, false, false, false, false, false, false, true],
   [false, false, false, true, true, false, false, true, true, false, false, true, true, false, false, true, true, false, false, true, true, false, false, true, true, false, false, false],
   [true, false, false, false, false, false, false, false, false, false, false, false, false, false, false, false, false, false, false, false, false, false, false, false, false, false, false, true],
   [true, false, false, false, false, false, false, false, false, false, false, false, false, false, false, false, false, false, false, false, false, false, false, false, false, false, false, true],
   [true, false, false, false, false, false, false, false, false, false, false, false, false, false, false, false, false, false, false, false, false, false, false, false, false, false, false, true],
   [true, false, false, true, true, false, false, true, true, false, false, true, true, false, false, true, true, false, false, true, true, false, false, true, true, false, false, true],
   [true, false, false, false, false, false, false, false, false, false, false, false, false, false, false, false, false, false, false, false, false, false, false, false, false, false, false, true],
   [true, false, false, false, false, false, false, false, false, false, false, false, false, false, false, false, false, false, false, false, false, false, false, false, false, false, false, true],
   [true, false, false, false, false, false, false, false, false, false, false, false, false, false, false, false, false, false, false, false, false, false, false, false, false, false, false, true],
   [true, false, false, true, true, false, false, true, true, false, false, true, true, false, false, true, true, false, false, true, true, false, false, true, true, false, false, true],
   [true, false, false, false, false, false, false, false, false, false, false, false, false, false, false, false, false, false, false, false, false, false, false, false, false, false, false, true],
   [true, false, false, false, false, false, false, false, false, false, false, false, false, false, false, false, false, false, false, false, false, false, false, false, false, false, false, true],
   [true, false, false, false, false, false, false, false, false, false, false, false, false, false, false, false, false, false, false, false, false, false, false, false, false, false, false, true],
   [true, false, false, true, true, false, false, true, true, false, false, true, true, false, false, true, true, false, false, true, true, false, false, true, true, false, false, true],
   [true, false, false, false, false, false, false, false, false, false, false, false, false, false, false, false, false, false, false, false, false, false, false, false, false, false, false, true],
   [true, false, false, false, false, false, false, false, false, false, false, false, false, false, false, false, false, false, false, false, false, false, false, false, false, false, false, true],
   [true, true, true, true, true, true, true, true, true, true, true, true, true, true, true, true, true, true, true, true, true, true, true, true, true, true, true, true]]

/-- Index lookup in an index-grid certificate: the index of cell `(y, x)`,
`0` when the cell is out of range or unindexed. -/
def getIdx (g : List (List Nat)) (x y : Nat) : Nat :=
  (g.getD y []).getD x 0

/-- Cell `(y, x)` of the index grid holds a positive index smaller than the
index of `c`. -/
def nbrIdxB (idx : List (List Nat)) (c : Nat × Nat) (y x : Nat) : Bool :=
  decide (1 ≤ getIdx idx x y) && decide (getIdx idx x y < getIdx idx c.2 c.1)

/-- Check one cell of an index-grid connectivity certificate: an open cell
must hold index `1` and be the start, or an index above `1` together with a
4-neighbour indexed positively below it; any other cell must hold `0`. -/
def cellIdxOk (walls : Grid) (s : Nat × Nat) (idx : List (List Nat))
    (c : Nat × Nat) : Bool :=
  if isOpenCellB walls c then
    if getIdx idx c.2 c.1 == 1 then decide (c = s)
    else
      decide (1 < getIdx idx c.2 c.1) &&
        (nbrIdxB idx c (c.1 - 1) c.2 || (nbrIdxB idx c (c.1 + 1) c.2 ||
          (nbrIdxB idx c c.1 (c.2 - 1) || nbrIdxB idx c c.1 (c.2 + 1))))
  else getIdx idx c.2 c.1 == 0

/-- Check an index-grid connectivity certificate: the grid has the stated
dimensions and every cell passes `cellIdxOk`.  A passing certificate indexes
the open cells in a BFS discovery order and witnesses reachability from
`s`. -/
def certOk (walls : Grid) (width height : Nat) (s : Nat × Nat)
    (idx : List (List Nat)) : Bool :=
  decide (idx.length = height) && idx.all (fun r => decide (r.length = width)) &&
    (cellList width height).all (cellIdxOk walls s idx)

/-- A BFS discovery-order index grid over the open cells of `classicWalls`
from the player-spawn cell `(29, 14)`; checked by `certOk`. -/
def classicIdx : List (List Nat) :=
  [[0, 0, 0, 0, 0, 0, 0, 0, 0, 0, 0, 0, 0, 0, 0, 0, 0, 0, 0, 0, 0, 0, 0, 0, 0, 0, 0, 0],
   [0, 396, 393, 389, 385, 381, 376, 370, 364, 357, 349, 340, 330, 341, 335, 325, 336, 345, 353, 361, 367, 373, 379, 383, 387, 391, 395, 0],
   [0, 394, 0, 0, 0, 0, 0, 0, 0, 0, 0, 0, 320, 0, 0, 315, 0, 0, 0, 0, 0, 0, 0, 0, 0, 0, 392, 0],
   [0, 390, 0, 0, 0, 0, 0, 0, 0, 0, 0, 0, 309, 0, 0, 303, 0, 0, 0, 0, 0, 0, 0, 0, 0, 0, 388, 0],
   [0, 386, 0, 0, 0, 0, 0, 0, 0, 0, 0, 0, 296, 0, 0, 289, 0, 0, 0, 0, 0, 0, 0, 0, 0, 0, 384, 0],
   [0, 382, 377, 371, 365, 359, 350, 342, 331, 321, 310, 297, 283, 298, 290, 277, 291, 304, 316, 326, 337, 346, 355, 362, 368, 374, 380, 0],
   [0, 378, 0, 0, 0, 0, 358, 0, 0, 0, 0, 0, 271, 284, 278, 265, 0, 0, 0, 0, 0, 354, 0, 0, 0, 0, 375, 0],
   [0, 372, 0, 0, 0, 0, 0, 0, 0, 0, 0, 0, 259, 272, 266, 253, 0, 0, 0, 0, 0, 0, 0, 0, 0, 0, 369, 0],
   [0, 366, 0, 0, 0, 0, 0, 0, 0, 0, 0, 0, 247, 260, 254, 241, 0, 0, 0, 0, 0, 0, 0, 0, 0, 0, 363, 0],
   [0, 360, 351, 343, 332, 322, 311, 299, 285, 273, 261, 248, 235, 249, 242, 229, 243, 255, 267, 279, 292, 305, 317, 327, 338, 347, 356, 0],
   [0, 352, 0, 0, 0, 0, 300, 0, 0, 0, 0, 0, 222, 236, 230, 214, 0, 0, 0, 0, 0, 293, 0, 0, 0, 0, 348, 0],
   [0, 344, 333, 323, 312, 301, 286, 274, 262, 250, 237, 223, 207, 224, 215, 199, 216, 231, 244, 256, 268, 280, 294, 306, 318, 328, 339, 0],
   [0, 334, 0, 0, 0, 0, 0, 0, 0, 0, 0, 208, 192, 209, 200, 184, 201, 217, 0, 0, 0, 0, 0, 0, 0, 0, 329, 0],
   [0, 324, 0, 0, 0, 0, 0, 0, 0, 0, 0, 193, 177, 194, 185, 170, 186, 202, 0, 0, 0, 0, 0, 0, 0, 0, 319, 0],
   [0, 313, 0, 0, 0, 0, 0, 0, 0, 0, 0, 178, 164, 179, 171, 157, 172, 187, 0, 0, 0, 0, 0, 0, 0, 0, 307, 0],
   [314, 302, 287, 275, 263, 251, 238, 225, 210, 195, 180, 165, 150, 166, 158, 142, 159, 173, 188, 203, 218, 232, 245, 257, 269, 281, 295, 308],
   [0, 288, 0, 0, 0, 0, 226, 0, 0, 0, 0, 151, 135, 152, 143, 127, 144, 160, 0, 0, 0, 219, 0, 0, 0, 0, 282, 0],
   [0, 276, 0, 0, 0, 0, 211, 0, 0, 0, 0, 136, 120, 137, 128, 112, 129, 145, 0, 0, 0, 204, 0, 0, 0, 0, 270, 0],
   [0, 264, 0, 0, 0, 0, 196, 0, 0, 0, 0, 121, 105, 122, 113, 96, 114, 130, 0, 0, 0, 189, 0, 0, 0, 0, 258, 0],
   [0, 252, 239, 227, 212, 197, 181, 167, 153, 138, 123, 106, 91, 107, 97, 84, 98, 115, 131, 146, 161, 174, 190, 205, 220, 233, 246, 0],
   [0, 240, 0, 0, 0, 0, 0, 0, 0, 0, 0, 0, 79, 92, 85, 72, 0, 0, 0, 0, 0, 0, 0, 0, 0, 0, 234, 0],
   [0, 228, 0, 0, 0, 0, 0, 0, 0, 0, 0, 0, 67, 80, 73, 60, 0, 0, 0, 0, 0, 0, 0, 0, 0, 0, 221, 0],
   [0, 213, 0, 0, 0, 0, 0, 0, 0, 0, 0, 0, 55, 68, 61, 48, 0, 0, 0, 0, 0, 0, 0, 0, 0, 0, 206, 0],
   [0, 198, 182, 168, 154, 139, 124, 108, 93, 81, 69, 56, 44, 57, 49, 38, 50, 62, 74, 86, 99, 116, 132, 147, 162, 175, 191, 0],
   [0, 183, 0, 0, 0, 0, 109, 0, 0, 0, 0, 0, 34, 45, 39, 28, 0, 0, 0, 0, 0, 100, 0, 0, 0, 0, 176, 0],
   [0, 169, 155, 140, 125, 110, 94, 82, 70, 58, 46, 35, 26, 36, 29, 22, 30, 40, 51, 63, 75, 87, 101, 117, 133, 148, 163, 0],
   [0, 156, 0, 0, 0, 0, 0, 0, 0, 0, 0, 0, 20, 0, 0, 16, 0, 0, 0, 0, 0, 0, 0, 0, 0, 0, 149, 0],
   [0, 141, 0, 0, 0, 0, 0, 0, 0, 0, 0, 0, 14, 0, 0, 10, 0, 0, 0, 0, 0, 0, 0, 0, 0, 0, 134, 0],
   [0, 126, 111, 95, 83, 71, 59, 47, 37, 27, 21, 15, 9, 5, 2, 6, 11, 17, 23, 31, 41, 52, 64, 76, 88, 102, 118, 0],
   [0, 119, 103, 89, 77, 65, 53, 42, 32, 24, 18, 12, 7, 3, 1, 4, 8, 13, 19, 25, 33, 43, 54, 66, 78, 90, 104, 0],
   [0, 0, 0, 0, 0, 0, 0, 0, 0, 0, 0, 0, 0, 0, 0, 0, 0, 0, 0, 0, 0, 0, 0, 0, 0, 0, 0, 0]]

/-- A BFS discovery-order index grid over the open cells of `simpleWalls`
from `(29, 14)`; checked by `certOk`. -/
def simpleIdx : List (List Nat) :=
  [[0, 0, 0, 0, 0, 0, 0, 0, 0, 0, 0, 0, 0, 0, 0, 0, 0, 0, 0, 0, 0, 0, 0, 0, 0, 0, 0, 0],
   [0, 672, 669, 664, 657, 649, 640, 628, 613, 598, 583, 564, 541, 519, 498, 520, 542, 565, 584, 599, 614, 629, 641, 650, 658, 665, 670, 0],
   [0, 671, 666, 659, 651, 642, 630, 615, 600, 585, 566, 543, 521, 499, 474, 500, 522, 544, 567, 586, 601, 616, 631, 643, 652, 660, 667, 0],
   [0, 668, 661, 0, 0, 632, 617, 0, 0, 568, 545, 0, 0, 475, 448, 0, 0, 524, 547, 0, 0, 603, 619, 0, 0, 654, 663, 0],
   [0, 662, 653, 644, 633, 618, 602, 587, 569, 546, 523, 501, 476, 449, 425, 450, 477, 502, 525, 548, 570, 588, 604, 620, 634, 645, 655, 0],
   [0, 656, 646, 635, 621, 605, 589, 571, 549, 526, 503, 478, 451, 426, 405, 427, 452, 479, 504, 527, 550, 572, 590, 606, 622, 636, 647, 0],
   [0, 648, 637, 623, 607, 591, 573, 551, 528, 505, 480, 453, 428, 406, 382, 407, 429, 454, 481, 506, 529, 552, 574, 592, 608, 624, 638, 0],
   [0, 639, 625, 0, 0, 575, 553, 0, 0, 482, 455, 0, 0, 383, 356, 0, 0, 431, 457, 0, 0, 531, 555, 0, 0, 610, 627, 0],
   [0, 626, 609, 593, 576, 554, 530, 507, 483, 456, 430, 408, 384, 357, 333, 358, 385, 409, 432, 458, 484, 508, 532, 556, 577, 594, 611, 0],
   [0, 612, 595, 578, 557, 533, 509, 485, 459, 433, 410, 386, 359, 334, 313, 335, 360, 387, 411, 434, 460, 486, 510, 534, 558, 579, 596, 0],
   [0, 597, 580, 559, 535, 511, 487, 461, 435, 412, 388, 361, 336, 314, 290, 315, 337, 362, 389, 413, 436, 462, 488, 512, 536, 560, 581, 0],
   [0, 582, 561, 0, 0, 489, 463, 0, 0, 390, 363, 0, 0, 291, 264, 0, 0, 339, 365, 0, 0, 438, 465, 0, 0, 538, 563, 0],
   [0, 562, 537, 513, 490, 464, 437, 414, 391, 364, 338, 316, 292, 265, 241, 266, 293, 317, 340, 366, 392, 415, 439, 466, 491, 514, 539, 0],
   [0, 540, 515, 492, 467, 440, 416, 393, 367, 341, 318, 294, 267, 242, 221, 243, 268, 295, 319, 342, 368, 394, 417, 441, 468, 493, 516, 0],
   [0, 517, 494, 469, 442, 418, 395, 369, 343, 320, 296, 269, 244, 222, 198, 223, 245, 270, 297, 321, 344, 370, 396, 419, 443, 470, 495, 0],
   [518, 496, 471, 0, 0, 397, 371, 0, 0, 298, 271, 0, 0, 199, 172, 0, 0, 247, 273, 0, 0, 346, 373, 0, 0, 445, 473, 497],
   [0, 472, 444, 420, 398, 372, 345, 322, 299, 272, 246, 224, 200, 173, 149, 174, 201, 225, 248, 274, 300, 323, 347, 374, 399, 421, 446, 0],
   [0, 447, 422, 400, 375, 348, 324, 301, 275, 249, 226, 202, 175, 150, 130, 151, 176, 203, 227, 250, 276, 302, 325, 349, 376, 401, 423, 0],
   [0, 424, 402, 377, 350, 326, 303, 277, 251, 228, 204, 177, 152, 131, 110, 132, 153, 178, 205, 229, 252, 278, 304, 327, 351, 378, 403, 0],
   [0, 404, 379, 0, 0, 305, 279, 0, 0, 206, 179, 0, 0, 111, 89, 0, 0, 155, 181, 0, 0, 254, 281, 0, 0, 353, 381, 0],
   [0, 380, 352, 328, 306, 280, 253, 230, 207, 180, 154, 133, 112, 90, 72, 91, 113, 134, 156, 182, 208, 231, 255, 282, 307, 329, 354, 0],
   [0, 355, 330, 308, 283, 256, 232, 209, 183, 157, 135, 114, 92, 73, 59, 74, 93, 115, 136, 158, 184, 210, 233, 257, 284, 309, 331, 0],
   [0, 332, 310, 285, 258, 234, 211, 185, 159, 137, 116, 94, 75, 60, 46, 61, 76, 95, 117, 138, 160, 186, 212, 235, 259, 286, 311, 0],
   [0, 312, 287, 0, 0, 213, 187, 0, 0, 118, 96, 0, 0, 47, 33, 0, 0, 78, 98, 0, 0, 162, 189, 0, 0, 261, 289, 0],
   [0, 288, 260, 236, 214, 188, 161, 139, 119, 97, 77, 62, 48, 34, 23, 35, 49, 63, 79, 99, 120, 140, 163, 190, 215, 237, 262, 0],
   [0, 263, 238, 216, 191, 164, 141, 121, 100, 80, 64, 50, 36, 24, 16, 25, 37, 51, 65, 81, 101, 122, 142, 165, 192, 217, 239, 0],
   [0, 240, 218, 193, 166, 143, 123, 102, 82, 66, 52, 38, 26, 17, 10, 18, 27, 39, 53, 67, 83, 103, 124, 144, 167, 194, 219, 0],
   [0, 220, 195, 0, 0, 125, 104, 0, 0, 54, 40, 0, 0, 11, 5, 0, 0, 29, 42, 0, 0, 85, 106, 0, 0, 169, 197, 0],
   [0, 196, 168, 145, 126, 105, 84, 68, 55, 41, 28, 19, 12, 6, 2, 7, 13, 20, 30, 43, 56, 69, 86, 107, 127, 146, 170, 0],
   [0, 171, 147, 128, 108, 87, 70, 57, 44, 31, 21, 14, 8, 3, 1, 4, 9, 15, 22, 32, 45, 58, 71, 88, 109, 129, 148, 0],
   [0, 0, 0, 0, 0, 0, 0, 0, 0, 0, 0, 0, 0, 0, 0, 0, 0, 0, 0, 0, 0, 0, 0, 0, 0, 0, 0, 0]]

/-- The power pellet positions of the classic layout. -/
def classicPellets : List Position :=
  [⟨1, 3⟩, ⟨26, 3⟩, ⟨1, 27⟩, ⟨26, 27⟩]

/-- The tunnel pairs of the classic layout. -/
def classicTunnels : List TunnelPair :=
  [⟨⟨0, 15⟩, ⟨27, 15⟩⟩, ⟨⟨27, 15⟩, ⟨0, 15⟩⟩]

/-- The full `MazeData` of the classic layout, as a literal record. -/
def classicMazeData : MazeData :=
  { width := 28, height := 31, walls := classicWalls, dots := classicDots,
    powerPellets := classicPellets, tunnels := classicTunnels,
    ghostSpawn := ⟨14, 15⟩, playerSpawn := ⟨14, 29⟩ }

/-- The connectivity invariant of a generated maze: every in-bounds non-wall
cell is reachable from the player spawn through non-wall cells. -/
def mazeConnected (m : MazeData) : Prop :=
  ∀ c, openCell m.walls m.width m.height c →
    Reach m.walls m.width m.height (cellOf m.playerSpawn) c

end WebPacman
namespace WebPacman

lemma cellOf_mem_gridCells {width height : Nat} {p : Position}
    (h : posInB width height p) : cellOf p ∈ gridCells width height := by
  rcases h with ⟨h1, h2, h3, h4⟩
  simp only [gridCells, cellOf, Finset.mem_product, Finset.mem_range]
  omega

lemma openCell_of_pos {walls : Grid} {width height : Nat} {p : Position}
    (hb : posInB width height p)
    (hw : getCell walls p.x.toNat p.y.toNat true = false) :
    openCell walls width height (cellOf p) := by
  rcases hb with ⟨h1, h2, h3, h4⟩
  refine ⟨⟨?_, ?_⟩, hw⟩ <;> simp only [cellOf] <;> omega

section BfsStep

variable {walls : Grid} {width height : Nat}

lemma bfsVisit_visited_subset (st : BfsState) (q : Position) :
    st.visited ⊆ (bfsVisit walls width height st q).visited := by
  unfold bfsVisit
  split
  · exact Finset.subset_insert _ _
  · exact Finset.Subset.refl _

lemma bfsVisit_visited_char (st : BfsState) (q : Position) :
    ∀ z ∈ (bfsVisit walls width height st q).visited,
      z ∈ st.visited ∨
        z = cellOf q ∧ posInB width height q ∧
          getCell walls q.x.toNat q.y.toNat true = false := by
  intro z hz
  unfold bfsVisit at hz
  split at hz
  · next hc =>
    rcases Finset.mem_insert.mp hz with h | h
    · exact Or.inr ⟨h, ⟨hc.1, hc.2.1, hc.2.2.1, hc.2.2.2.1⟩, hc.2.2.2.2.2⟩
    · exact Or.inl h
  · exact Or.inl hz

lemma bfsVisit_queue_sub (st : BfsState) (q : Position) :
    ∀ p ∈ st.queue, p ∈ (bfsVisit walls width height st q).queue := by
  intro p hp
  unfold bfsVisit
  split
  · exact List.mem_append_left _ hp
  · exact hp

lemma bfsVisit_open_mem (st : BfsState) (q : Position)
    (hb : posInB width height q)
    (hw : getCell walls q.x.toNat q.y.toNat true = false) :
    cellOf q ∈ (bfsVisit walls width height st q).visited := by
  unfold bfsVisit
  by_cases hv : cellOf q ∈ st.visited
  · split
    · exact Finset.mem_insert.mpr (Or.inr hv)
    · exact hv
  · rcases hb with ⟨h1, h2, h3, h4⟩
    rw [if_pos ⟨h1, h2, h3, h4, hv, hw⟩]
    exact Finset.mem_insert_self _ _

lemma bfsVisit_queue_char (st : BfsState) (q : Position) :
    ∀ p ∈ (bfsVisit walls width height st q).queue,
      p ∈ st.queue ∨
        p = q ∧ posInB width height p ∧
          cellOf p ∈ (bfsVisit walls width height st q).visited := by
  intro p hp
  unfold bfsVisit at hp
  split at hp
  · next hc =>
    simp only [List.mem_append, List.mem_singleton] at hp
    rcases hp with h | h
    · exact Or.inl h
    · subst h
      refine Or.inr ⟨rfl, ⟨hc.1, hc.2.1, hc.2.2.1, hc.2.2.2.1⟩, ?_⟩
      exact bfsVisit_open_mem st p ⟨hc.1, hc.2.1, hc.2.2.1, hc.2.2.2.1⟩
        hc.2.2.2.2.2
  · exact Or.inl hp

lemma bfsVisit_count (st : BfsState) (q : Position)
    (hc : st.count = st.visited.card) :
    (bfsVisit walls width height st q).count =
      (bfsVisit walls width height st q).visited.card := by
  unfold bfsVisit
  split
  · next hcond =>
    simp only [Finset.card_insert_of_not_mem hcond.2.2.2.2.1, hc]
  · exact hc

lemma bfsVisit_vis_to_queue (st : BfsState) (q : Position) :
    ∀ z ∈ (bfsVisit walls width height st q).visited,
      z ∈ st.visited ∨ ∃ p ∈ (bfsVisit walls width height st q).queue, cellOf p = z := by
  intro z hz
  unfold bfsVisit at hz ⊢
  split at hz
  · next hc =>
    rcases Finset.mem_insert.mp hz with h | h
    · subst h
      rw [if_pos hc]
      exact Or.inr ⟨q, List.mem_append_right _ (List.mem_singleton_self _), rfl⟩
    · exact Or.inl h
  · exact Or.inl hz

lemma bfsVisit_measure (st : BfsState) (q : Position) :
    (gridCells width height \ (bfsVisit walls width height st q).visited).card +
        (bfsVisit walls width height st q).queue.length ≤
      (gridCells width height \ st.visited).card + st.queue.length := by
  unfold bfsVisit
  split
  · next hc =>
    have hmem : cellOf q ∈ gridCells width height \ st.visited :=
      Finset.mem_sdiff.mpr
        ⟨cellOf_mem_gridCells ⟨hc.1, hc.2.1, hc.2.2.1, hc.2.2.2.1⟩, hc.2.2.2.2.1⟩
    have hset : gridCells width height \ insert (cellOf q) st.visited =
        (gridCells width height \ st.visited).erase (cellOf q) := by
      ext z
      simp only [Finset.mem_sdiff, Finset.mem_insert, Finset.mem_erase]
      tauto
    have hcard : ((gridCells width height \ st.visited).erase (cellOf q)).card =
        (gridCells width height \ st.visited).card - 1 :=
      Finset.card_erase_of_mem hmem
    have hpos : 1 ≤ (gridCells width height \ st.visited).card :=
      Finset.card_pos.mpr ⟨cellOf q, hmem⟩
    simp only [hset, hcard, List.length_append, List.length_singleton]
    omega
  · exact Nat.le_refl _

end BfsStep

end WebPacman

namespace WebPacman

section BfsExpand

variable {walls : Grid} {width height : Nat}

lemma expandList_visited_subset (st : BfsState) (ps : List Position) :
    st.visited ⊆ (expandList walls width height st ps).visited := by
  induction ps generalizing st with
  | nil => exact Finset.Subset.refl _
  | cons p ps ih =>
    exact (bfsVisit_visited_subset st p).trans (ih _)

lemma expandList_visited_char (st : BfsState) (ps : List Position) :
    ∀ z ∈ (expandList walls width height st ps).visited,
      z ∈ st.visited ∨
        ∃ p ∈ ps, z = cellOf p ∧ posInB width height p ∧
          getCell walls p.x.toNat p.y.toNat true = false := by
  induction ps generalizing st with
  | nil => exact fun z hz => Or.inl hz
  | cons p ps ih =>
    intro z hz
    rcases ih (bfsVisit walls width height st p) z hz with h | ⟨p', hp', h⟩
    · rcases bfsVisit_visited_char st p z h with h' | h'
      · exact Or.inl h'
      · exact Or.inr ⟨p, List.mem_cons_self _ _, h'⟩
    · exact Or.inr ⟨p', List.mem_cons_of_mem _ hp', h⟩

lemma expandList_queue_sub (st : BfsState) (ps : List Position) :
    ∀ p ∈ st.queue, p ∈ (expandList walls width height st ps).queue := by
  induction ps generalizing st with
  | nil => exact fun p hp => hp
  | cons q ps ih =>
    intro p hp
    exact ih _ p (bfsVisit_queue_sub st q p hp)

lemma expandList_queue_char (st : BfsState) (ps : List Position) :
    ∀ p ∈ (expandList walls width height st ps).queue,
      p ∈ st.queue ∨
        p ∈ ps ∧ posInB width height p ∧
          cellOf p ∈ (expandList walls width height st ps).visited := by
  induction ps generalizing st with
  | nil => exact fun p hp => Or.inl hp
  | cons q ps ih =>
    intro p hp
    rcases ih (bfsVisit walls width height st q) p hp with h | ⟨hmem, hb, hv⟩
    · rcases bfsVisit_queue_char st q p h with h' | ⟨heq, hb, hv⟩
      · exact Or.inl h'
      · refine Or.inr ⟨heq ▸ List.mem_cons_self _ _, hb, ?_⟩
        exact expandList_visited_subset (bfsVisit walls width height st q) ps hv
    · exact Or.inr ⟨List.mem_cons_of_mem _ hmem, hb, hv⟩

lemma expandList_open_mem (st : BfsState) (ps : List Position) :
    ∀ p ∈ ps, posInB width height p →
      getCell walls p.x.toNat p.y.toNat true = false →
      cellOf p ∈ (expandList walls width height st ps).visited := by
  induction ps generalizing st with
  | nil => intro p hp; exact absurd hp (List.not_mem_nil _)
  | cons q ps ih =>
    intro p hp hb hw
    rcases List.mem_cons.mp hp with h | h
    · subst h
      exact expandList_visited_subset (bfsVisit walls width height st p) ps
        (bfsVisit_open_mem st p hb hw)
    · exact ih _ p h hb hw

lemma expandList_count (st : BfsState) (ps : List Position)
    (hc : st.count = st.visited.card) :
    (expandList walls width height st ps).count =
      (expandList walls width height st ps).visited.card := by
  induction ps generalizing st with
  | nil => exact hc
  | cons p ps ih =>
    exact ih _ (bfsVisit_count st p hc)

lemma expandList_vis_to_queue (st : BfsState) (ps : List Position) :
    ∀ z ∈ (expandList walls width height st ps).visited,
      z ∈ st.visited ∨
        ∃ p ∈ (expandList walls width height st ps).queue, cellOf p = z := by
  induction ps generalizing st with
  | nil => exact fun z hz => Or.inl hz
  | cons p ps ih =>
    intro z hz
    rcases ih (bfsVisit walls width height st p) z hz with h | ⟨p', hp', h⟩
    · rcases bfsVisit_vis_to_queue st p z h with h' | ⟨p', hp', h'⟩
      · exact Or.inl h'
      · exact Or.inr ⟨p', expandList_queue_sub (bfsVisit walls width height st p) ps p' hp', h'⟩
    · exact Or.inr ⟨p', hp', h⟩

lemma expandList_measure (st : BfsState) (ps : List Position) :
    (gridCells width height \ (expandList walls width height st ps).visited).card +
        (expandList walls width height st ps).queue.length ≤
      (gridCells width height \ st.visited).card + st.queue.length := by
  induction ps generalizing st with
  | nil => exact Nat.le_refl _
  | cons p ps ih =>
    exact (ih _).trans (bfsVisit_measure st p)

end BfsExpand

end WebPacman

namespace WebPacman

lemma Position.x_mk (a b : Int) : (Position.mk a b).x = a := rfl

lemma Position.y_mk (a b : Int) : (Position.mk a b).y = b := rfl

lemma neighborPositions_eq (c : Position) :
    neighborPositions c =
      [⟨c.x, c.y - 1⟩, ⟨c.x, c.y + 1⟩, ⟨c.x - 1, c.y⟩, ⟨c.x + 1, c.y⟩] := by
  simp only [neighborPositions, dirOffsets, List.map_cons, List.map_nil]
  have h0 : ∀ a : Int, a + 0 = a := Int.add_zero
  have hm : ∀ a : Int, a + -1 = a - 1 := fun a => by omega
  rw [h0 c.x, h0 c.y, hm c.x, hm c.y]

lemma mem_neighborPositions {c p : Position} :
    p ∈ neighborPositions c ↔
      p = ⟨c.x, c.y - 1⟩ ∨ p = ⟨c.x, c.y + 1⟩ ∨
        p = ⟨c.x - 1, c.y⟩ ∨ p = ⟨c.x + 1, c.y⟩ := by
  rw [neighborPositions_eq]
  simp only [List.mem_cons, List.not_mem_nil, or_false]

lemma nbr_cellOf_neighbor {width height : Nat} {c p : Position}
    (hb : posInB width height c) (hp : p ∈ neighborPositions c)
    (hpb : posInB width height p) : nbr (cellOf c) (cellOf p) := by
  obtain ⟨hb1, hb2, hb3, hb4⟩ := hb
  rcases mem_neighborPositions.mp hp with h | h | h | h <;> subst h
  · -- above
    have hp3 : 0 ≤ c.y - 1 := hpb.2.2.1
    exact Or.inr ⟨rfl, Or.inl (show (c.y - 1).toNat + 1 = c.y.toNat by omega)⟩
  · -- below
    exact Or.inr ⟨rfl, Or.inr (show c.y.toNat + 1 = (c.y + 1).toNat by omega)⟩
  · -- left
    have hp1 : 0 ≤ c.x - 1 := hpb.1
    exact Or.inl ⟨rfl, Or.inl (show (c.x - 1).toNat + 1 = c.x.toNat by omega)⟩
  · -- right
    exact Or.inl ⟨rfl, Or.inr (show c.x.toNat + 1 = (c.x + 1).toNat by omega)⟩

lemma exists_neighborPosition {walls : Grid} {width height : Nat} {c : Position}
    (hcb : posInB width height c) {r : Nat × Nat}
    (hr : openCell walls width height r) (hn : nbr (cellOf c) r) :
    ∃ p ∈ neighborPositions c, posInB width height p ∧ cellOf p = r ∧
      getCell walls p.x.toNat p.y.toNat true = false := by
  obtain ⟨r1, r2⟩ := r
  obtain ⟨⟨hr1, hr2⟩, hrw⟩ := hr
  obtain ⟨hb1, hb2, hb3, hb4⟩ := hcb
  simp only [nbr, cellOf] at hn
  simp only at hr1 hr2 hrw
  rcases hn with ⟨h1, h2 | h2⟩ | ⟨h1, h2 | h2⟩
  · -- r is left of c
    refine ⟨⟨c.x - 1, c.y⟩, mem_neighborPositions.mpr (Or.inr (Or.inr (Or.inl rfl))),
      ?_, ?_, ?_⟩
    · refine ⟨?_, ?_, ?_, ?_⟩ <;> simp only [Position.x_mk, Position.y_mk] <;> omega
    · simp only [cellOf, Position.x_mk, Position.y_mk, Prod.mk.injEq]
      constructor <;> omega
    · simp only [Position.x_mk, Position.y_mk]
      have hx : (c.x - 1).toNat = r2 := by omega
      have hy : c.y.toNat = r1 := by omega
      rw [hx, hy]
      exact hrw
  · -- r is right of c
    refine ⟨⟨c.x + 1, c.y⟩, mem_neighborPositions.mpr (Or.inr (Or.inr (Or.inr rfl))),
      ?_, ?_, ?_⟩
    · refine ⟨?_, ?_, ?_, ?_⟩ <;> simp only [Position.x_mk, Position.y_mk] <;> omega
    · simp only [cellOf, Position.x_mk, Position.y_mk, Prod.mk.injEq]
      constructor <;> omega
    · simp only [Position.x_mk, Position.y_mk]
      have hx : (c.x + 1).toNat = r2 := by omega
      have hy : c.y.toNat = r1 := by omega
      rw [hx, hy]
      exact hrw
  · -- r is above c
    refine ⟨⟨c.x, c.y - 1⟩, mem_neighborPositions.mpr (Or.inl rfl), ?_, ?_, ?_⟩
    · refine ⟨?_, ?_, ?_, ?_⟩ <;> simp only [Position.x_mk, Position.y_mk] <;> omega
    · simp only [cellOf, Position.x_mk, Position.y_mk, Prod.mk.injEq]
      constructor <;> omega
    · simp only [Position.x_mk, Position.y_mk]
      have hx : c.x.toNat = r2 := by omega
      have hy : (c.y - 1).toNat = r1 := by omega
      rw [hx, hy]
      exact hrw
  · -- r is below c
    refine ⟨⟨c.x, c.y + 1⟩, mem_neighborPositions.mpr (Or.inr (Or.inl rfl)), ?_, ?_, ?_⟩
    · refine ⟨?_, ?_, ?_, ?_⟩ <;> simp only [Position.x_mk, Position.y_mk] <;> omega
    · simp only [cellOf, Position.x_mk, Position.y_mk, Prod.mk.injEq]
      constructor <;> omega
    · simp only [Position.x_mk, Position.y_mk]
      have hx : c.x.toNat = r2 := by omega
      have hy : (c.y + 1).toNat = r1 := by omega
      rw [hx, hy]
      exact hrw

end WebPacman

namespace WebPacman

section BfsLoop

variable {walls : Grid} {width height : Nat}

lemma bfsLoop_post (s : Nat × Nat) :
    ∀ (fuel : Nat) (st : BfsState),
      (gridCells width height \ st.visited).card + st.queue.length ≤ fuel →
      BfsInv walls width height s st →
      (bfsLoop walls width height fuel st).2 =
          (bfsLoop walls width height fuel st).1.card ∧
        s ∈ (bfsLoop walls width height fuel st).1 ∧
        (∀ z ∈ (bfsLoop walls width height fuel st).1,
          Reach walls width height s z) ∧
        (∀ z ∈ (bfsLoop walls width height fuel st).1,
          z = s ∨ openCell walls width height z) ∧
        (∀ z ∈ (bfsLoop walls width height fuel st).1,
          ∀ r, adjStep walls width height z r →
            r ∈ (bfsLoop walls width height fuel st).1) := by
  intro fuel
  induction fuel with
  | zero =>
    intro st hm hinv
    have hq : st.queue = [] := List.length_eq_zero.mp (by omega)
    simp only [bfsLoop]
    exact ⟨hinv.count_card, hinv.start_mem, hinv.vis_reach, hinv.vis_open,
      fun z hz hr => hinv.vis_closed z hz (by simp [hq])  hr⟩
  | succ fuel ih =>
    intro st hm hinv
    rcases hq : st.queue with _ | ⟨c, rest⟩
    · simp only [bfsLoop, hq]
      exact ⟨hinv.count_card, hinv.start_mem, hinv.vis_reach, hinv.vis_open,
        fun z hz hr => hinv.vis_closed z hz (by simp [hq]) hr⟩
    · have hcq : c ∈ st.queue := hq ▸ List.mem_cons_self c rest
      have hcb : posInB width height c := hinv.queue_inb c hcq
      have hcv : cellOf c ∈ st.visited := hinv.queue_mem c hcq
      have hrest : ∀ p ∈ rest, p ∈ st.queue := by
        intro p hp
        rw [hq]
        exact List.mem_cons_of_mem _ hp
      have hm2 : (gridCells width height \
            (expandList walls width height
              { visited := st.visited, queue := rest, count := st.count }
              (neighborPositions c)).visited).card +
            (expandList walls width height
              { visited := st.visited, queue := rest, count := st.count }
              (neighborPositions c)).queue.length ≤ fuel := by
        have h1 := @expandList_measure walls width height
          { visited := st.visited, queue := rest, count := st.count }
          (neighborPositions c)
        have h2 : st.queue.length = rest.length + 1 := by rw [hq]; rfl
        simp only at h1
        omega
      have hinv2 : BfsInv walls width height s
          (expandList walls width height
            { visited := st.visited, queue := rest, count := st.count }
            (neighborPositions c)) := by
        constructor
        · -- queue_inb
          intro p hp
          rcases expandList_queue_char _ _ p hp with h | ⟨_, hb, _⟩
          · exact hinv.queue_inb p (hrest p h)
          · exact hb
        · -- queue_mem
          intro p hp
          rcases expandList_queue_char _ _ p hp with h | ⟨_, _, hv⟩
          · exact expandList_visited_subset _ _ (hinv.queue_mem p (hrest p h))
          · exact hv
        · -- vis_reach
          intro z hz
          rcases expandList_visited_char _ _ z hz with h | ⟨p, hpmem, rfl, hpb, hw⟩
          · exact hinv.vis_reach z h
          · exact Relation.ReflTransGen.tail (hinv.vis_reach _ hcv)
              ⟨openCell_of_pos hpb hw, nbr_cellOf_neighbor hcb hpmem hpb⟩
        · -- vis_open
          intro z hz
          rcases expandList_visited_char _ _ z hz with h | ⟨p, _, rfl, hpb, hw⟩
          · exact hinv.vis_open z h
          · exact Or.inr (openCell_of_pos hpb hw)
        · -- vis_closed
          intro z hz hnq r hr
          by_cases hzc : z = cellOf c
          · subst hzc
            obtain ⟨p, hpmem, hpb, hpc, hw⟩ :=
              exists_neighborPosition hcb hr.1 hr.2
            exact hpc ▸ expandList_open_mem _ _ p hpmem hpb hw
          · have hz' : z ∈ st.visited := by
              rcases expandList_vis_to_queue _ _ z hz with h | ⟨p, hpq, hpc⟩
              · exact h
              · exact absurd hpc (hnq p hpq)
            refine expandList_visited_subset _ _ (hinv.vis_closed z hz' ?_ r hr)
            intro p hp
            rw [hq] at hp
            rcases List.mem_cons.mp hp with h | h
            · subst h
              exact fun hcz => hzc hcz.symm
            · exact hnq p (expandList_queue_sub _ _ p h)
        · -- count_card
          exact expandList_count _ _ hinv.count_card
        · -- start_mem
          exact expandList_visited_subset _ _ hinv.start_mem
      have hgoal := ih _ hm2 hinv2
      simpa only [bfsLoop, hq] using hgoal

end BfsLoop

end WebPacman

namespace WebPacman

/-- A closed set containing the start contains everything reachable. -/
lemma reach_mem {walls : Grid} {width height : Nat} {s : Nat × Nat}
    {v : Finset (Nat × Nat)} (hs : s ∈ v)
    (hcl : ∀ z ∈ v, ∀ r, adjStep walls width height z r → r ∈ v) :
    ∀ z, Reach walls width height s z → z ∈ v := by
  intro z hz
  induction hz with
  | refl => exact hs
  | tail _ hstep ih => exact hcl _ ih _ hstep

lemma foldl_count {α : Type} (p : α → Prop) [DecidablePred p] :
    ∀ (l : List α) (n : Nat),
      (l.foldl (fun n a => if p a then n + 1 else n) n) =
        n + (l.filter (fun a => decide (p a))).length := by
  intro l
  induction l with
  | nil => intro n; simp
  | cons a l ih =>
    intro n
    by_cases h : p a <;> simp [List.filter_cons, h, ih] <;> omega

lemma mem_cellList {width height : Nat} {c : Nat × Nat} :
    c ∈ cellList width height ↔ c.1 < height ∧ c.2 < width := by
  obtain ⟨y, x⟩ := c
  simp [cellList, List.mem_product]

lemma nodup_cellList {width height : Nat} : (cellList width height).Nodup :=
  (List.nodup_range height).product (List.nodup_range width)

lemma product_append {α β : Type} (l1 l2 : List α) (l : List β) :
    (l1 ++ l2) ×ˢ l = l1 ×ˢ l ++ l2 ×ˢ l := by
  induction l1 with
  | nil => simp
  | cons a l1 ih => simp [List.product_cons, ih]

lemma totalSpaces_eq (walls : Grid) (width height : Nat) :
    totalSpaces walls width height =
      ((cellList width height).filter (isOpenCellB walls)).length := by
  unfold totalSpaces cellList
  induction height with
  | zero => simp
  | succ h ih =>
    rw [List.range_succ, List.foldl_append, product_append, List.filter_append,
      List.length_append, ← ih]
    simp only [List.foldl_cons, List.foldl_nil, List.product_cons, List.nil_product,
      List.append_nil]
    rw [foldl_count (fun x => getCell walls x h true = false)]
    congr 1
    rw [List.filter_map, List.length_map]
    congr 1
    apply List.filter_congr
    intro x _
    simp [isOpenCellB, Function.comp, Bool.not_eq_true']

end WebPacman

namespace WebPacman

lemma mem_openCells {walls : Grid} {width height : Nat} {c : Nat × Nat} :
    c ∈ openCells walls width height ↔ openCell walls width height c := by
  simp [openCells, List.mem_toFinset, List.mem_filter, mem_cellList, openCell,
    inB, isOpenCellB, Bool.not_eq_true', and_assoc]

lemma card_openCells (walls : Grid) (width height : Nat) :
    (openCells walls width height).card =
      ((cellList width height).filter (isOpenCellB walls)).length :=
  List.toFinset_card_of_nodup (nodup_cellList.filter _)

/-- Correctness of `validateMaze`: for an in-bounds, non-wall spawn it
returns `true` exactly when every in-bounds non-wall cell is reachable from
the spawn cell through non-wall cells. -/
lemma validateMaze_correct (walls : Grid) (spawn : Position) (width height : Nat)
    (hin : posInB width height spawn)
    (hopen : getCell walls spawn.x.toNat spawn.y.toNat true = false) :
    validateMaze walls spawn width height = true ↔
      ∀ c, openCell walls width height c →
        Reach walls width height (cellOf spawn) c := by
  have hscell : openCell walls width height (cellOf spawn) :=
    openCell_of_pos hin hopen
  have hm : (gridCells width height \ ({cellOf spawn} : Finset (Nat × Nat))).card +
      ([spawn] : List Position).length ≤ width * height + 1 := by
    have h1 : (gridCells width height \ ({cellOf spawn} : Finset (Nat × Nat))).card ≤
        (gridCells width height).card :=
      Finset.card_le_card (Finset.sdiff_subset)
    have h2 : (gridCells width height).card = height * width := by
      simp [gridCells, Finset.card_product]
    have h3 : height * width = width * height := Nat.mul_comm _ _
    simp only [List.length_singleton]
    omega
  have hinv : BfsInv walls width height (cellOf spawn)
      { visited := {cellOf spawn}, queue := [spawn], count := 1 } := by
    constructor
    · intro p hp
      rw [List.mem_singleton.mp hp]
      exact hin
    · intro p hp
      rw [List.mem_singleton.mp hp]
      exact Finset.mem_singleton_self _
    · intro z hz
      rw [Finset.mem_singleton.mp hz]
      exact Relation.ReflTransGen.refl
    · intro z hz
      exact Or.inl (Finset.mem_singleton.mp hz)
    · intro z hz hq
      exact absurd (Finset.mem_singleton.mp hz).symm
        (hq spawn (List.mem_singleton_self _))
    · simp
    · exact Finset.mem_singleton_self _
  obtain ⟨hcount, hs, hreach, hopen', hclosed⟩ :=
    bfsLoop_post (cellOf spawn) (width * height + 1)
      { visited := {cellOf spawn}, queue := [spawn], count := 1 } hm hinv
  have hsub : (bfsLoop walls width height (width * height + 1)
      { visited := {cellOf spawn}, queue := [spawn], count := 1 }).1 ⊆
        openCells walls width height := by
    intro z hz
    rcases hopen' z hz with h | h
    · rw [h]
      exact mem_openCells.mpr hscell
    · exact mem_openCells.mpr h
  have hval : validateMaze walls spawn width height = true ↔
      (bfsLoop walls width height (width * height + 1)
        { visited := {cellOf spawn}, queue := [spawn], count := 1 }).2 =
        totalSpaces walls width height := by
    simp [validateMaze]
  rw [hval, hcount, totalSpaces_eq, ← card_openCells]
  constructor
  · intro hcard c hc
    have heq : (bfsLoop walls width height (width * height + 1)
        { visited := {cellOf spawn}, queue := [spawn], count := 1 }).1 =
          openCells walls width height :=
      Finset.eq_of_subset_of_card_le hsub (le_of_eq hcard.symm)
    exact hreach c (heq ▸ mem_openCells.mpr hc)
  · intro hall
    have hsup : openCells walls width height ⊆
        (bfsLoop walls width height (width * height + 1)
          { visited := {cellOf spawn}, queue := [spawn], count := 1 }).1 := by
      intro z hz
      exact reach_mem hs hclosed z (hall z (mem_openCells.mp hz))
    exact le_antisymm (Finset.card_le_card hsub) (Finset.card_le_card hsup)

end WebPacman

namespace WebPacman

end WebPacman

namespace WebPacman


end WebPacman

namespace WebPacman

set_option maxRecDepth 40000 in
/-- The classic generator ignores its level argument and always returns the
literal `classicMazeData`. -/
lemma classic_generateMaze_eq (level : Nat) :
    MazeGenerator.generateMaze level = classicMazeData := by
  have h0 : MazeGenerator.generateMaze level = MazeGenerator.generateMaze 0 := rfl
  rw [h0]
  decide

set_option maxRecDepth 40000 in
/-- The fallback simple layout ignores its level argument; its walls are the
literal `simpleWalls` and its player spawn is `(14, 29)`. -/
lemma simple_walls_eq (level : Nat) :
    (MazeGeneratorSubdiv.generateSimpleMaze level).walls = simpleWalls ∧
      (MazeGeneratorSubdiv.generateSimpleMaze level).playerSpawn = ⟨14, 29⟩ ∧
      (MazeGeneratorSubdiv.generateSimpleMaze level).width = 28 ∧
      (MazeGeneratorSubdiv.generateSimpleMaze level).height = 31 := by
  have h0 : MazeGeneratorSubdiv.generateSimpleMaze level =
      MazeGeneratorSubdiv.generateSimpleMaze 0 := rfl
  rw [h0]
  exact ⟨by decide, rfl, rfl, rfl⟩

end WebPacman

namespace WebPacman

lemma getD_set_eq {α : Type} :
    ∀ (l : List α) (i : Nat) (a d : α), i < l.length →
      (l.set i a).getD i d = a := by
  intro l
  induction l with
  | nil => intro i a d h; simp at h
  | cons x l ih =>
    intro i a d h
    cases i with
    | zero => rfl
    | succ i =>
      simp only [List.set_cons_succ, List.getD_cons_succ]
      exact ih i a d (by simpa using h)

lemma getD_set_ne {α : Type} :
    ∀ (l : List α) (i j : Nat) (a d : α), i ≠ j →
      (l.set i a).getD j d = l.getD j d := by
  intro l
  induction l with
  | nil => intro i j a d _; simp [List.set]
  | cons x l ih =>
    intro i j a d h
    cases i with
    | zero =>
      cases j with
      | zero => exact absurd rfl h
      | succ j => rfl
    | succ i =>
      cases j with
      | zero => rfl
      | succ j =>
        simp only [List.set_cons_succ, List.getD_cons_succ]
        exact ih i j a d (fun he => h (by rw [he]))

lemma getD_mem {α : Type} :
    ∀ (l : List α) (i : Nat) (d : α), i < l.length → l.getD i d ∈ l := by
  intro l
  induction l with
  | nil => intro i d h; simp at h
  | cons x l ih =>
    intro i d h
    cases i with
    | zero => exact List.mem_cons_self _ _
    | succ i =>
      exact List.mem_cons_of_mem _ (ih i d (by simpa using h))

lemma mem_set_cases {α : Type} :
    ∀ (l : List α) (i : Nat) (a x : α), x ∈ l.set i a →
      x ∈ l ∨ (x = a ∧ i < l.length) := by
  intro l
  induction l with
  | nil => intro i a x h; simp [List.set] at h
  | cons y l ih =>
    intro i a x h
    cases i with
    | zero =>
      rcases List.mem_cons.mp h with h' | h'
      · exact Or.inr ⟨h', by simp⟩
      · exact Or.inl (List.mem_cons_of_mem _ h')
    | succ i =>
      rcases List.mem_cons.mp h with h' | h'
      · exact Or.inl (h' ▸ List.mem_cons_self _ _)
      · rcases ih i a x h' with h2 | ⟨h2, h3⟩
        · exact Or.inl (List.mem_cons_of_mem _ h2)
        · exact Or.inr ⟨h2, by simpa using h3⟩

lemma gridDims_setCell {g : Grid} {width height : Nat} (x y : Nat) (b : Bool)
    (h : GridDims g width height) : GridDims (setCell g x y b) width height := by
  obtain ⟨hlen, hrow⟩ := h
  constructor
  · simpa [setCell] using hlen
  · intro row hrowmem
    rcases mem_set_cases _ _ _ _ hrowmem with h' | ⟨h', hy⟩
    · exact hrow row h'
    · rw [h', List.length_set]
      exact hrow _ (getD_mem _ _ _ hy)

lemma gridDims_foldl {α : Type} {width height : Nat} (f : Grid → α → Grid)
    (hf : ∀ g a, GridDims g width height → GridDims (f g a) width height) :
    ∀ (l : List α) (g : Grid), GridDims g width height →
      GridDims (l.foldl f g) width height := by
  intro l
  induction l with
  | nil => intro g h; exact h
  | cons a l ih => intro g h; exact ih _ (hf g a h)

lemma gridDims_replicate (width height : Nat) (b : Bool) :
    GridDims (List.replicate height (List.replicate width b)) width height := by
  constructor
  · simp
  · intro row h
    rw [List.eq_of_mem_replicate h]
    simp

lemma getCell_setCell_row_ne {g : Grid} (x y x' y' : Nat) (b d : Bool)
    (h : y ≠ y') : getCell (setCell g x y b) x' y' d = getCell g x' y' d := by
  unfold getCell setCell
  rw [getD_set_ne _ _ _ _ _ h]

lemma getCell_setCell_self {g : Grid} {width height : Nat} (x y : Nat) (b d : Bool)
    (hdims : GridDims g width height) (hx : x < width) (hy : y < height) :
    getCell (setCell g x y b) x y d = b := by
  obtain ⟨hlen, hrow⟩ := hdims
  have hylen : y < g.length := by rw [hlen]; exact hy
  unfold getCell setCell
  rw [getD_set_eq _ _ _ _ hylen, getD_set_eq]
  rw [hrow _ (getD_mem _ _ _ hylen)]
  exact hx

end WebPacman

namespace WebPacman

lemma gridDims_ite {W H : Nat} (c : Prop) [Decidable c] (g1 g2 : Grid)
    (h1 : GridDims g1 W H) (h2 : GridDims g2 W H) :
    GridDims (if c then g1 else g2) W H := by
  split <;> assumption

lemma gridDims_createBorderWalls {g : Grid} {W H : Nat} (width height : Nat)
    (hd : GridDims g W H) :
    GridDims (MazeGeneratorSubdiv.createBorderWalls g width height) W H := by
  unfold MazeGeneratorSubdiv.createBorderWalls
  apply gridDims_foldl
  · intro g y hg
    exact gridDims_setCell _ _ _ (gridDims_setCell _ _ _ hg)
  · apply gridDims_foldl
    · intro g x hg
      exact gridDims_setCell _ _ _ (gridDims_setCell _ _ _ hg)
    · exact hd

lemma gridDims_generateMazeStructure {g : Grid} {W H : Nat}
    (x y w h level : Nat) (rand : Nat → Rat) (hd : GridDims g W H) :
    GridDims (MazeGeneratorSubdiv.generateMazeStructure g x y w h level rand)
      W H := by
  unfold MazeGeneratorSubdiv.generateMazeStructure
  split
  · exact hd
  · apply gridDims_ite
    · apply gridDims_foldl
      · intro g dy hg
        exact gridDims_setCell _ _ _ hg
      · apply gridDims_ite
        · apply gridDims_foldl
          · intro g dx hg
            exact gridDims_setCell _ _ _ hg
          · apply gridDims_foldl
            · intro g dy hg
              apply gridDims_foldl
              · intro g' dx hg'
                apply gridDims_ite
                · apply gridDims_ite
                  · exact gridDims_setCell _ _ _ hg'
                  · exact hg'
                · exact hg'
              · exact hg
            · exact hd
        · apply gridDims_foldl
          · intro g dy hg
            apply gridDims_foldl
            · intro g' dx hg'
              apply gridDims_ite
              · apply gridDims_ite
                · exact gridDims_setCell _ _ _ hg'
                · exact hg'
              · exact hg'
            · exact hg
          · exact hd
    · apply gridDims_ite
      · apply gridDims_foldl
        · intro g dx hg
          exact gridDims_setCell _ _ _ hg
        · apply gridDims_foldl
          · intro g dy hg
            apply gridDims_foldl
            · intro g' dx hg'
              apply gridDims_ite
              · apply gridDims_ite
                · exact gridDims_setCell _ _ _ hg'
                · exact hg'
              · exact hg'
            · exact hg
          · exact hd
      · apply gridDims_foldl
        · intro g dy hg
          apply gridDims_foldl
          · intro g' dx hg'
            apply gridDims_ite
            · apply gridDims_ite
              · exact gridDims_setCell _ _ _ hg'
              · exact hg'
            · exact hg'
          · exact hg
        · exact hd

end WebPacman

namespace WebPacman

lemma gridDims_createTunnelsSubdiv_fst {g : Grid} {W H : Nat} (width height : Nat)
    (hd : GridDims g W H) :
    GridDims (MazeGeneratorSubdiv.createTunnels g width height).1 W H := by
  unfold MazeGeneratorSubdiv.createTunnels
  exact gridDims_setCell _ _ _ (gridDims_setCell _ _ _ hd)

/-- The validated branch of the subdivision generator: when `validateMaze`
accepts the walls (the structure grid with both spawn cells cleared), every
open cell is reachable from the player-spawn cell `(29, 14)`. -/
lemma subdiv_valid_branch (walls : Grid) (hd : GridDims walls 28 31)
    (h : validateMaze (setCell (setCell walls 14 29 false) 14 15 false)
        ⟨14, 29⟩ 28 31 = true) :
    ∀ c, openCell (setCell (setCell walls 14 29 false) 14 15 false) 28 31 c →
      Reach (setCell (setCell walls 14 29 false) 14 15 false) 28 31 (29, 14) c := by
  have hopen : getCell (setCell (setCell walls 14 29 false) 14 15 false)
      14 29 true = false := by
    rw [getCell_setCell_row_ne 14 15 14 29 false true (by omega)]
    exact getCell_setCell_self 14 29 false true hd (by omega) (by omega)
  exact (validateMaze_correct _ ⟨14, 29⟩ 28 31 (by decide) hopen).mp h

end WebPacman

namespace WebPacman

lemma getD_len_le {α : Type} :
    ∀ (l : List α) (i : Nat) (d : α), l.length ≤ i → l.getD i d = d := by
  intro l
  induction l with
  | nil => intro i d _; cases i <;> rfl
  | cons a t ih =>
    intro i d hi
    cases i with
    | zero => simp at hi
    | succ j => exact ih j d (by simpa using hi)

/-- Outside the stated dimensions, an index grid of those dimensions reads
`0`. -/
lemma getIdx_out {width height : Nat} {idx : List (List Nat)}
    (h1 : idx.length = height) (h2 : ∀ r ∈ idx, r.length = width)
    {y x : Nat} (h : ¬ (y < height ∧ x < width)) : getIdx idx x y = 0 := by
  unfold getIdx
  by_cases hy : y < height
  · have hyl : y < idx.length := by omega
    have hmem : idx.getD y [] ∈ idx := getD_mem idx y []  hyl
    have hlen : (idx.getD y []).length = width := h2 _ hmem
    exact getD_len_le _ _ _ (by omega)
  · have hley : idx.length ≤ y := by omega
    rw [getD_len_le idx y [] hley]
    cases x <;> rfl

lemma certOk_facts {walls : Grid} {width height : Nat} {s : Nat × Nat}
    {idx : List (List Nat)} (h : certOk walls width height s idx = true) :
    idx.length = height ∧ (∀ r ∈ idx, r.length = width) ∧
      ∀ c ∈ cellList width height, cellIdxOk walls s idx c = true := by
  rw [certOk] at h
  simp only [Bool.and_eq_true] at h
  obtain ⟨⟨hl, hall⟩, hcells⟩ := h
  refine ⟨of_decide_eq_true hl, ?_, List.all_eq_true.mp hcells⟩
  intro r hr
  exact of_decide_eq_true (List.all_eq_true.mp hall r hr)

/-- A cell holding a positive index in a passing certificate is open. -/
lemma certOk_open_of_pos {walls : Grid} {width height : Nat} {s : Nat × Nat}
    {idx : List (List Nat)} (h : certOk walls width height s idx = true)
    {n : Nat × Nat} (hn : 1 ≤ getIdx idx n.2 n.1) :
    openCell walls width height n := by
  obtain ⟨h1, h2, h3⟩ := certOk_facts h
  by_cases hb : n.1 < height ∧ n.2 < width
  · have hok := h3 n (mem_cellList.mpr hb)
    rw [cellIdxOk] at hok
    by_cases ho : isOpenCellB walls n = true
    · refine ⟨hb, ?_⟩
      rw [isOpenCellB] at ho
      simpa using ho
    · rw [if_neg ho] at hok
      have h0 : getIdx idx n.2 n.1 = 0 := by simpa using hok
      omega
  · have h0 := getIdx_out h1 h2 hb
    omega

/-- Soundness of the certificate checker: a passing index grid shows that
every open cell is reachable from `s`. -/
lemma certOk_sound {walls : Grid} {width height : Nat} {s : Nat × Nat}
    {idx : List (List Nat)} (h : certOk walls width height s idx = true) :
    ∀ c, openCell walls width height c → Reach walls width height s c := by
  obtain ⟨h1, h2, h3⟩ := certOk_facts h
  have key : ∀ (K : Nat) (c : Nat × Nat), openCell walls width height c →
      getIdx idx c.2 c.1 ≤ K → Reach walls width height s c := by
    intro K
    induction K with
    | zero =>
      rintro ⟨cy, cx⟩ hc hk
      exfalso
      have hok := h3 (cy, cx) (mem_cellList.mpr ⟨hc.1.1, hc.1.2⟩)
      simp only [cellIdxOk] at hok
      have ho : isOpenCellB walls (cy, cx) = true := by
        rw [isOpenCellB, hc.2]; rfl
      rw [if_pos ho] at hok
      have hk0 : getIdx idx cx cy = 0 := Nat.le_zero.mp hk
      rw [hk0] at hok
      simp at hok
    | succ K ih =>
      rintro ⟨cy, cx⟩ hc hk
      have hk' : getIdx idx cx cy ≤ K + 1 := hk
      by_cases hle : getIdx idx cx cy ≤ K
      · exact ih (cy, cx) hc hle
      · have hok := h3 (cy, cx) (mem_cellList.mpr ⟨hc.1.1, hc.1.2⟩)
        simp only [cellIdxOk] at hok
        have ho : isOpenCellB walls (cy, cx) = true := by
          rw [isOpenCellB, hc.2]; rfl
        rw [if_pos ho] at hok
        by_cases h1k : getIdx idx cx cy = 1
        · rw [if_pos (show (getIdx idx cx cy == 1) = true by simpa using h1k)]
            at hok
          have hcs : (cy, cx) = s := of_decide_eq_true hok
          subst hcs
          exact Relation.ReflTransGen.refl
        · rw [if_neg (show ¬ ((getIdx idx cx cy == 1) = true) by
              simpa using h1k)] at hok
          rw [Bool.and_eq_true] at hok
          have step : ∀ y x : Nat, nbrIdxB idx (cy, cx) y x = true →
              ((y, x) = ((cy, cx) : Nat × Nat) ∨ nbr (y, x) (cy, cx)) →
              Reach walls width height s (cy, cx) := by
            intro y x hnb hor
            rw [nbrIdxB, Bool.and_eq_true] at hnb
            have hpos : 1 ≤ getIdx idx x y := of_decide_eq_true hnb.1
            have hlt : getIdx idx x y < getIdx idx cx cy :=
              of_decide_eq_true hnb.2
            rcases hor with he | hnbr
            · exfalso
              have hy : y = cy := congrArg Prod.fst he
              have hx : x = cx := congrArg Prod.snd he
              rw [hy, hx] at hlt
              exact absurd hlt (lt_irrefl _)
            · have hopen : openCell walls width height (y, x) :=
                certOk_open_of_pos h hpos
              have hreach : Reach walls width height s (y, x) := by
                refine ih (y, x) hopen ?_
                show getIdx idx x y ≤ K
                omega
              exact Relation.ReflTransGen.tail hreach ⟨hc, hnbr⟩
          rcases (by simpa only [Bool.or_eq_true] using hok.2 :
              nbrIdxB idx (cy, cx) (cy - 1) cx = true ∨
                (nbrIdxB idx (cy, cx) (cy + 1) cx = true ∨
                  (nbrIdxB idx (cy, cx) cy (cx - 1) = true ∨
                    nbrIdxB idx (cy, cx) cy (cx + 1) = true))) with
            h4 | h4 | h4 | h4
          · refine step (cy - 1) cx h4 ?_
            by_cases hz : cy = 0
            · subst hz
              exact Or.inl rfl
            · refine Or.inr ?_
              show cy = cy - 1 ∧ (cx + 1 = cx ∨ cx + 1 = cx) ∨
                cx = cx ∧ (cy + 1 = cy - 1 ∨ cy - 1 + 1 = cy)
              omega
          · refine step (cy + 1) cx h4 (Or.inr ?_)
            show cy = cy + 1 ∧ (cx + 1 = cx ∨ cx + 1 = cx) ∨
              cx = cx ∧ (cy + 1 = cy + 1 ∨ cy + 1 + 1 = cy)
            omega
          · refine step cy (cx - 1) h4 ?_
            by_cases hz : cx = 0
            · subst hz
              exact Or.inl rfl
            · refine Or.inr ?_
              show cy = cy ∧ (cx + 1 = cx - 1 ∨ cx - 1 + 1 = cx) ∨
                cx = cx - 1 ∧ (cy + 1 = cy ∨ cy + 1 = cy)
              omega
          · refine step cy (cx + 1) h4 (Or.inr ?_)
            show cy = cy ∧ (cx + 1 = cx + 1 ∨ cx + 1 + 1 = cx) ∨
              cx = cx + 1 ∧ (cy + 1 = cy ∨ cy + 1 = cy)
            omega
  intro c hc
  exact key (getIdx idx c.2 c.1) c hc (le_refl _)

end WebPacman

namespace WebPacman

set_option maxRecDepth 100000 in
set_option maxHeartbeats 3000000 in
/-- C1: every maze returned by `generateMaze` satisfies the connectivity
invariant: each non-wall cell is reachable from `playerSpawn` by
4-directional adjacency through non-wall cells.  This holds for the current
classic-layout generator at every level, and for the stochastic
recursive-subdivision revision at every level and for every random stream:
there a validated attempt is connected by `validateMaze` correctness, and a
failed attempt falls back to the known-connected simple layout. -/
theorem generateMaze_connected :
    (∀ level : Nat, mazeConnected (MazeGenerator.generateMaze level)) ∧
      (∀ (level : Nat) (rand : Nat → Rat),
        mazeConnected (MazeGeneratorSubdiv.generateMaze level rand)) := by
  constructor
  · intro level
    rw [classic_generateMaze_eq]
    intro c hc
    exact certOk_sound
      (show certOk classicWalls 28 31 (29, 14) classicIdx = true by
        decide) c hc
  · intro level rand
    unfold MazeGeneratorSubdiv.generateMaze
    dsimp only
    split
    · next h =>
      intro c hc
      refine subdiv_valid_branch _ ?_ h c hc
      apply gridDims_createTunnelsSubdiv_fst
      apply gridDims_generateMazeStructure
      apply gridDims_createBorderWalls
      exact gridDims_replicate 28 31 false
    · next h =>
      obtain ⟨hw, hps, hwd, hht⟩ := simple_walls_eq level
      intro c hc
      rw [hw, hwd, hht] at hc
      rw [hw, hwd, hht, hps]
      exact certOk_sound
        (show certOk simpleWalls 28 31 (29, 14) simpleIdx = true by
          decide) c hc

end WebPacman

namespace WebPacman.GameScene

lemma mem_allDirections (d : Direction) : d ∈ allDirections := by
  cases d <;> simp [allDirections]

lemma getOppositeDirection_ne (d : Direction) : getOppositeDirection d ≠ d := by
  cases d <;> simp [getOppositeDirection]

lemma pickBest_fold_mem (tileX tileY : Int) (target : Int × Int) :
    ∀ (l : List Direction) (acc : Option (Direction × Int)) (res : Direction × Int),
      l.foldl
        (fun acc dir =>
          let next := stepTile tileX tileY dir
          let distance := distSq next target
          match acc with
          | none => some (dir, distance)
          | some (bd, bdist) =>
            if distance < bdist then some (dir, distance) else some (bd, bdist))
        acc = some res →
      res.1 ∈ l ∨ ∃ p, acc = some p ∧ res.1 = p.1 := by
  intro l
  induction l with
  | nil =>
    intro acc res h
    exact Or.inr ⟨res, h, rfl⟩
  | cons d l ih =>
    intro acc res h
    simp only [List.foldl_cons] at h
    rcases acc with _ | ⟨bd, bdist⟩
    · rcases ih _ res h with h' | ⟨p, hp, hres⟩
      · exact Or.inl (List.mem_cons_of_mem _ h')
      · have hres' : res.1 = d := by
          rw [← Option.some_inj.mp hp] at hres
          exact hres
        exact Or.inl (hres' ▸ List.mem_cons_self _ _)
    · dsimp only at h
      split at h
      · rcases ih _ res h with h' | ⟨p, hp, hres⟩
        · exact Or.inl (List.mem_cons_of_mem _ h')
        · have hres' : res.1 = d := by
            rw [← Option.some_inj.mp hp] at hres
            exact hres
          exact Or.inl (hres' ▸ List.mem_cons_self _ _)
      · rcases ih _ res h with h' | ⟨p, hp, hres⟩
        · exact Or.inl (List.mem_cons_of_mem _ h')
        · have hres' : res.1 = bd := by
            rw [← Option.some_inj.mp hp] at hres
            exact hres
          exact Or.inr ⟨(bd, bdist), rfl, hres'⟩

lemma pickBest_mem (tileX tileY : Int) (target : Int × Int)
    (dirs : List Direction) (d : Direction)
    (h : pickBestDirection tileX tileY target dirs = some d) : d ∈ dirs := by
  unfold pickBestDirection at h
  rcases Option.map_eq_some'.mp h with ⟨res, hres, hd⟩
  rcases pickBest_fold_mem tileX tileY target dirs none res hres with h' | ⟨p, hp, _⟩
  · exact hd ▸ h'
  · cases hp

lemma getD_mod_mem {α : Type} (l : List α) (h : l ≠ []) (k : Nat) (d : α) :
    l.getD (k % l.length) d ∈ l := by
  have hlen : 0 < l.length := List.length_pos.mpr h
  exact WebPacman.getD_mem l _ d (Nat.mod_lt _ hlen)

/-- If there is no open non-reverse direction, every open direction is the
reverse. -/
lemma forward_empty_all_reverse {walls : Grid} {width height : Nat}
    {tileX tileY : Int} {opp : Direction}
    (hempty : (allDirections.filter (fun dir =>
      decide (dir ≠ opp) && canGhostMove walls width height tileX tileY dir)).isEmpty = true) :
    ∀ d, canGhostMove walls width height tileX tileY d = true → d = opp := by
  intro d hd
  by_contra hne
  have hmem : d ∈ allDirections.filter (fun dir =>
      decide (dir ≠ opp) && canGhostMove walls width height tileX tileY dir) := by
    rw [List.mem_filter]
    exact ⟨mem_allDirections d, by rw [hd, decide_eq_true hne]; rfl⟩
  rw [List.isEmpty_iff] at hempty
  rw [hempty] at hmem
  exact absurd hmem (List.not_mem_nil d)

/-- Membership in the non-reverse filter excludes the reverse. -/
lemma mem_forward_ne {walls : Grid} {width height : Nat}
    {tileX tileY : Int} {opp d : Direction}
    (h : d ∈ allDirections.filter (fun dir =>
      decide (dir ≠ opp) && canGhostMove walls width height tileX tileY dir)) :
    d ≠ opp := by
  rw [List.mem_filter, Bool.and_eq_true] at h
  exact of_decide_eq_true h.2.1

end WebPacman.GameScene

namespace WebPacman.GameScene

/-- C5: at a decision point, the direction chosen by `chooseGhostDirection`
(in chase, scatter or eaten mode, or by `getRandomDirection` in frightened
mode) is the exact reverse of the ghost's heading only when every open move
from the tile is that reverse. -/
theorem chooseGhostDirection_no_reverse (ctx : GhostAiCtx) (ghost : GhostState)
    (tileX tileY : Int) (randIdx : Nat)
    (hrev : chooseGhostDirection ctx ghost tileX tileY randIdx =
      getOppositeDirection ghost.direction) :
    ∀ d, canGhostMove ctx.walls ctx.width ctx.height tileX tileY d = true →
      d = getOppositeDirection ghost.direction := by
  unfold chooseGhostDirection at hrev
  dsimp only at hrev
  by_cases hfr : ghost.mode = GhostMode.frightened
  · rw [if_pos hfr] at hrev
    unfold getRandomDirection at hrev
    dsimp only at hrev
    by_cases hemp : (allDirections.filter (fun dir =>
        decide (dir ≠ getOppositeDirection ghost.direction) &&
          canGhostMove ctx.walls ctx.width ctx.height tileX tileY dir)).isEmpty = true
    · exact forward_empty_all_reverse hemp
    · exfalso
      rw [if_neg hemp] at hrev
      have hne : (allDirections.filter (fun dir =>
          decide (dir ≠ getOppositeDirection ghost.direction) &&
            canGhostMove ctx.walls ctx.width ctx.height tileX tileY dir)) ≠ [] := by
        intro hnil
        rw [hnil] at hemp
        exact hemp rfl
      have hd := getD_mod_mem _ hne randIdx ghost.direction
      rw [hrev] at hd
      exact absurd rfl (mem_forward_ne hd)
  · rw [if_neg hfr] at hrev
    by_cases hfwd : (allDirections.filter (fun dir =>
        decide (dir ≠ getOppositeDirection ghost.direction) &&
          canGhostMove ctx.walls ctx.width ctx.height tileX tileY dir)).isEmpty = true
    · exact forward_empty_all_reverse hfwd
    · exfalso
      rw [if_neg hfwd, if_neg hfwd] at hrev
      rcases hp : pickBestDirection tileX tileY
          (max 0 (min ((ctx.width : Int) - 1)
            (if ghost.mode = GhostMode.chase then
              match ghost.color with
              | GhostColor.red => (⌊ctx.playerX / TILE_SIZE⌋, ⌊ctx.playerY / TILE_SIZE⌋)
              | GhostColor.pink =>
                match ctx.playerDir with
                | some Direction.up => (⌊ctx.playerX / TILE_SIZE⌋, ⌊ctx.playerY / TILE_SIZE⌋ - 4)
                | some Direction.down => (⌊ctx.playerX / TILE_SIZE⌋, ⌊ctx.playerY / TILE_SIZE⌋ + 4)
                | some Direction.left => (⌊ctx.playerX / TILE_SIZE⌋ - 4, ⌊ctx.playerY / TILE_SIZE⌋)
                | some Direction.right => (⌊ctx.playerX / TILE_SIZE⌋ + 4, ⌊ctx.playerY / TILE_SIZE⌋)
                | none => (⌊ctx.playerX / TILE_SIZE⌋, ⌊ctx.playerY / TILE_SIZE⌋)
              | GhostColor.cyan =>
                match ctx.ghosts.find? (fun g => g.color = GhostColor.red) with
                | some redGhost =>
                  (⌊ctx.playerX / TILE_SIZE⌋ +
                      (match ctx.playerDir with
                       | some Direction.right => 2
                       | some Direction.left => -2
                       | _ => 0) +
                    (⌊ctx.playerX / TILE_SIZE⌋ +
                        (match ctx.playerDir with
                         | some Direction.right => 2
                         | some Direction.left => -2
                         | _ => 0) - ⌊redGhost.x / TILE_SIZE⌋),
                   ⌊ctx.playerY / TILE_SIZE⌋ +
                      (match ctx.playerDir with
                       | some Direction.down => 2
                       | some Direction.up => -2
                       | _ => 0) +
                    (⌊ctx.playerY / TILE_SIZE⌋ +
                        (match ctx.playerDir with
                         | some Direction.down => 2
                         | some Direction.up => -2
                         | _ => 0) - ⌊redGhost.y / TILE_SIZE⌋))
                | none => (⌊ctx.playerX / TILE_SIZE⌋, ⌊ctx.playerY / TILE_SIZE⌋)
              | GhostColor.orange =>
                if distSq (tileX, tileY) (⌊ctx.playerX / TILE_SIZE⌋, ⌊ctx.playerY / TILE_SIZE⌋) > 64 then
                  (⌊ctx.playerX / TILE_SIZE⌋, ⌊ctx.playerY / TILE_SIZE⌋)
                else (ghost.scatterTarget.x, ghost.scatterTarget.y)
            else if ghost.mode = GhostMode.scatter then
              (ghost.scatterTarget.x, ghost.scatterTarget.y)
            else (ctx.ghostSpawn.x, ctx.ghostSpawn.y)).1),
           max 0 (min ((ctx.height : Int) - 1)
            (if ghost.mode = GhostMode.chase then
              match ghost.color with
              | GhostColor.red => (⌊ctx.playerX / TILE_SIZE⌋, ⌊ctx.playerY / TILE_SIZE⌋)
              | GhostColor.pink =>
                match ctx.playerDir with
                | some Direction.up => (⌊ctx.playerX / TILE_SIZE⌋, ⌊ctx.playerY / TILE_SIZE⌋ - 4)
                | some Direction.down => (⌊ctx.playerX / TILE_SIZE⌋, ⌊ctx.playerY / TILE_SIZE⌋ + 4)
                | some Direction.left => (⌊ctx.playerX / TILE_SIZE⌋ - 4, ⌊ctx.playerY / TILE_SIZE⌋)
                | some Direction.right => (⌊ctx.playerX / TILE_SIZE⌋ + 4, ⌊ctx.playerY / TILE_SIZE⌋)
                | none => (⌊ctx.playerX / TILE_SIZE⌋, ⌊ctx.playerY / TILE_SIZE⌋)
              | GhostColor.cyan =>
                match ctx.ghosts.find? (fun g => g.color = GhostColor.red) with
                | some redGhost =>
                  (⌊ctx.playerX / TILE_SIZE⌋ +
                      (match ctx.playerDir with
                       | some Direction.right => 2
                       | some Direction.left => -2
                       | _ => 0) +
                    (⌊ctx.playerX / TILE_SIZE⌋ +
                        (match ctx.playerDir with
                         | some Direction.right => 2
                         | some Direction.left => -2
                         | _ => 0) - ⌊redGhost.x / TILE_SIZE⌋),
                   ⌊ctx.playerY / TILE_SIZE⌋ +
                      (match ctx.playerDir with
                       | some Direction.down => 2
                       | some Direction.up => -2
                       | _ => 0) +
                    (⌊ctx.playerY / TILE_SIZE⌋ +
                        (match ctx.playerDir with
                         | some Direction.down => 2
                         | some Direction.up => -2
                         | _ => 0) - ⌊redGhost.y / TILE_SIZE⌋))
                | none => (⌊ctx.playerX / TILE_SIZE⌋, ⌊ctx.playerY / TILE_SIZE⌋)
              | GhostColor.orange =>
                if distSq (tileX, tileY) (⌊ctx.playerX / TILE_SIZE⌋, ⌊ctx.playerY / TILE_SIZE⌋) > 64 then
                  (⌊ctx.playerX / TILE_SIZE⌋, ⌊ctx.playerY / TILE_SIZE⌋)
                else (ghost.scatterTarget.x, ghost.scatterTarget.y)
            else if ghost.mode = GhostMode.scatter then
              (ghost.scatterTarget.x, ghost.scatterTarget.y)
            else (ctx.ghostSpawn.x, ctx.ghostSpawn.y)).2))
          (allDirections.filter (fun dir =>
            decide (dir ≠ getOppositeDirection ghost.direction) &&
              canGhostMove ctx.walls ctx.width ctx.height tileX tileY dir))
        with _ | dir
      · rw [hp] at hrev
        exact getOppositeDirection_ne ghost.direction hrev.symm
      · rw [hp] at hrev
        exact absurd hrev (mem_forward_ne (pickBest_mem _ _ _ _ _ hp))

end WebPacman.GameScene

namespace WebPacman.GameScene

/-- Witness for `chooseGhostDirection_no_reverse`: in a dead-end corridor the
only open move is the reverse, the AI chooses it, and the theorem applies. -/
theorem chooseGhostDirection_no_reverse_witness :
    Direction.right = getOppositeDirection Direction.left := by
  have h := chooseGhostDirection_no_reverse
    { walls := [[true, true, true], [true, false, false], [true, true, true]],
      width := 3, height := 3, ghostSpawn := ⟨0, 0⟩, ghosts := [],
      playerX := 0, playerY := 0, playerDir := none }
    { color := GhostColor.red, mode := GhostMode.chase,
      direction := Direction.left, scatterTarget := ⟨0, 0⟩, x := 0, y := 0 }
    1 1 0 (by decide)
  exact h Direction.right (by decide)

/-- C6: collecting a power pellet turns power mode on and resets the timer
to the level-scaled duration (also when already in power mode, so durations
never stack), and a tick that brings the timer to zero or below turns power
mode off, clears the timer to 0, and sends every frightened ghost to chase. -/
theorem powerMode_spec (s : SceneState) (delta : Rat) :
    ((enterPowerMode s).gameState.powerMode = true ∧
      (enterPowerMode s).gameState.powerModeTimer =
        calculatePowerPelletDuration s.gameState.level) ∧
    (s.gameState.powerMode = true → s.gameState.powerModeTimer ≤ delta →
      (updatePowerModeTimer s delta).gameState.powerMode = false ∧
      (updatePowerModeTimer s delta).gameState.powerModeTimer = 0 ∧
      (updatePowerModeTimer s delta).ghosts = s.ghosts.map (fun g =>
        if g.mode = GhostMode.frightened then { g with mode := GhostMode.chase }
        else g)) := by
  refine ⟨⟨rfl, rfl⟩, ?_⟩
  intro hp hle
  have hcond : s.gameState.powerModeTimer - delta ≤ 0 := by linarith
  unfold updatePowerModeTimer
  rw [if_pos hp]
  dsimp only
  rw [if_pos hcond]
  exact ⟨rfl, rfl, rfl⟩

/-- Witness for `powerMode_spec` at a concrete state. -/
theorem powerMode_spec_witness :
    (updatePowerModeTimer
      { gameState := { score := 0, lives := 3, level := 1, powerMode := true,
                       powerModeTimer := 100, gameStatus := GameStatus.playing },
        ghosts := [{ color := GhostColor.red, mode := GhostMode.frightened,
                     direction := Direction.left, scatterTarget := ⟨0, 0⟩,
                     x := 0, y := 0 }] }
      100).gameState.powerMode = false := by
  have h := (powerMode_spec
    { gameState := { score := 0, lives := 3, level := 1, powerMode := true,
                     powerModeTimer := 100, gameStatus := GameStatus.playing },
      ghosts := [{ color := GhostColor.red, mode := GhostMode.frightened,
                   direction := Direction.left, scatterTarget := ⟨0, 0⟩,
                   x := 0, y := 0 }] }
    100).2 rfl (by norm_num)
  exact h.1

/-- C7: lives never increase across a collision event; a `chase`/`scatter`
ghost hitting the player while playing costs exactly one life, reaching zero
flips the status to `gameOver` (which pins lives at 0); and once the status
is `gameOver` a collision changes nothing. -/
theorem lives_spec (st : GameState) (g : GhostState) :
    (0 ≤ st.lives → (handleGhostCollision st g).state.lives ≤ st.lives) ∧
    (st.gameStatus = GameStatus.playing →
      (g.mode = GhostMode.chase ∨ g.mode = GhostMode.scatter) →
      1 ≤ st.lives →
      (handleGhostCollision st g).state.lives = st.lives - 1 ∧
      ((handleGhostCollision st g).state.lives = 0 →
        (handleGhostCollision st g).state.gameStatus = GameStatus.gameOver)) ∧
    (st.gameStatus = GameStatus.gameOver →
      handleGhostCollision st g =
        { state := st, ghost := g, respawnDelay := none }) := by
  refine ⟨?_, ?_, ?_⟩
  · intro hnn
    unfold handleGhostCollision
    split
    · exact le_refl _
    · split
      · exact le_refl _
      · split
        · unfold loseLife
          dsimp only
          split
          · unfold gameOver
            dsimp only
            omega
          · dsimp only
            omega
        · exact le_refl _
  · intro hplay hmode hlives
    have hnfr : g.mode ≠ GhostMode.frightened := by
      rcases hmode with h | h <;> rw [h] <;> intro hc <;> cases hc
    have hnea : g.mode ≠ GhostMode.eaten := by
      rcases hmode with h | h <;> rw [h] <;> intro hc <;> cases hc
    unfold handleGhostCollision
    rw [if_neg (by rw [hplay]; intro hc; exact hc rfl)]
    rw [if_neg (by intro hc; exact hnfr hc.2)]
    rw [if_pos ⟨hnfr, hnea⟩]
    dsimp only
    unfold loseLife
    dsimp only
    split
    · next hle =>
      unfold gameOver
      dsimp only
      constructor
      · omega
      · intro _
        rfl
    · next hle =>
      dsimp only
      constructor
      · rfl
      · intro hz
        omega
  · intro hgo
    unfold handleGhostCollision
    rw [if_pos (by rw [hgo]; intro hc; cases hc)]

/-- Witness for `lives_spec`: a playing 3-lives state loses exactly one life
to a scatter-mode ghost. -/
theorem lives_spec_witness :
    (handleGhostCollision
      { score := 0, lives := 3, level := 1, powerMode := false,
        powerModeTimer := 0, gameStatus := GameStatus.playing }
      { color := GhostColor.red, mode := GhostMode.scatter,
        direction := Direction.left, scatterTarget := ⟨0, 0⟩,
        x := 0, y := 0 }).state.lives = 3 - 1 := by
  have h := ((lives_spec
    { score := 0, lives := 3, level := 1, powerMode := false,
      powerModeTimer := 0, gameStatus := GameStatus.playing }
    { color := GhostColor.red, mode := GhostMode.scatter,
      direction := Direction.left, scatterTarget := ⟨0, 0⟩,
      x := 0, y := 0 }).2.1 rfl (Or.inr rfl) (by norm_num)).1
  exact h

/-- C8: while playing in power mode, colliding with a frightened ghost turns
it `eaten`, adds a flat 200 to the score, and schedules a respawn after
3000 ms; the respawn puts the ghost at the centre of the ghost-spawn tile in
`scatter` mode. -/
theorem eatGhost_spec (st : GameState) (g : GhostState) (spawn : Position)
    (hplay : st.gameStatus = GameStatus.playing)
    (hpm : st.powerMode = true)
    (hfr : g.mode = GhostMode.frightened) :
    (handleGhostCollision st g).state.score = st.score + 200 ∧
    (handleGhostCollision st g).ghost.mode = GhostMode.eaten ∧
    (handleGhostCollision st g).respawnDelay = some 3000 ∧
    (respawnGhost spawn (handleGhostCollision st g).ghost).mode =
      GhostMode.scatter ∧
    (respawnGhost spawn (handleGhostCollision st g).ghost).x =
      (spawn.x : Rat) * TILE_SIZE + TILE_SIZE / 2 ∧
    (respawnGhost spawn (handleGhostCollision st g).ghost).y =
      (spawn.y : Rat) * TILE_SIZE + TILE_SIZE / 2 := by
  unfold handleGhostCollision
  rw [if_neg (by rw [hplay]; intro hc; exact hc rfl)]
  rw [if_pos ⟨hpm, hfr⟩]
  exact ⟨rfl, rfl, rfl, rfl, rfl, rfl⟩

/-- Witness for `eatGhost_spec` at a concrete state. -/
theorem eatGhost_spec_witness :
    (handleGhostCollision
      { score := 70, lives := 3, level := 1, powerMode := true,
        powerModeTimer := 5000, gameStatus := GameStatus.playing }
      { color := GhostColor.pink, mode := GhostMode.frightened,
        direction := Direction.up, scatterTarget := ⟨2, 0⟩,
        x := 40, y := 40 }).state.score = 70 + 200 :=
  (eatGhost_spec
    { score := 70, lives := 3, level := 1, powerMode := true,
      powerModeTimer := 5000, gameStatus := GameStatus.playing }
    { color := GhostColor.pink, mode := GhostMode.frightened,
      direction := Direction.up, scatterTarget := ⟨2, 0⟩,
      x := 40, y := 40 }
    ⟨14, 15⟩ rfl rfl rfl).1

/-- C9: ghost speed is non-decreasing and power-pellet duration
non-increasing in the level, with the stated closed forms and bounds. -/
theorem difficulty_monotone (level : Nat) (h : 1 ≤ level) :
    calculateGhostSpeed level ≤ calculateGhostSpeed (level + 1) ∧
    calculatePowerPelletDuration (level + 1) ≤ calculatePowerPelletDuration level ∧
    calculateGhostSpeed level =
      BASE_GHOST_SPEED * min (1 + ((level : Rat) - 1) * 0.05) 1.5 ∧
    calculateGhostSpeed level ≤ 1.5 * BASE_GHOST_SPEED ∧
    0.3 * BASE_POWER_PELLET_DURATION ≤ calculatePowerPelletDuration level := by
  refine ⟨?_, ?_, rfl, ?_, ?_⟩
  · unfold calculateGhostSpeed
    apply mul_le_mul_of_nonneg_left _ (by norm_num [BASE_GHOST_SPEED])
    apply min_le_min _ (le_refl _)
    push_cast
    linarith
  · unfold calculatePowerPelletDuration
    apply mul_le_mul_of_nonneg_left _ (by norm_num [BASE_POWER_PELLET_DURATION])
    apply max_le_max _ (le_refl _)
    push_cast
    linarith
  · unfold calculateGhostSpeed
    calc BASE_GHOST_SPEED * min (1 + ((level : Rat) - 1) * 0.05) 1.5 ≤
        BASE_GHOST_SPEED * 1.5 :=
          mul_le_mul_of_nonneg_left (min_le_right _ _)
            (by norm_num [BASE_GHOST_SPEED])
      _ = 1.5 * BASE_GHOST_SPEED := by ring
  · unfold calculatePowerPelletDuration
    calc (0.3 : Rat) * BASE_POWER_PELLET_DURATION =
        BASE_POWER_PELLET_DURATION * 0.3 := by ring
      _ ≤ BASE_POWER_PELLET_DURATION *
            max (1 - ((level : Rat) - 1) * 0.1) 0.3 :=
          mul_le_mul_of_nonneg_left (le_max_right _ _)
            (by norm_num [BASE_POWER_PELLET_DURATION])

/-- Witness for `difficulty_monotone` at level 1. -/
theorem difficulty_monotone_witness :
    calculateGhostSpeed 1 ≤ calculateGhostSpeed 2 :=
  (difficulty_monotone 1 (by norm_num)).1

end WebPacman.GameScene

namespace WebPacman

/-- C2: for an in-bounds non-wall spawn on a matrix of the given dimensions,
`validateMaze` returns `true` exactly when every in-bounds non-wall cell is
reachable from the spawn cell by breadth-first search through non-wall
4-neighbours. -/
theorem validateMaze_true_iff (walls : Grid) (spawn : Position)
    (width height : Nat)
    (hdims : GridDims walls width height)
    (hin : posInB width height spawn)
    (hopen : getCell walls spawn.x.toNat spawn.y.toNat true = false) :
    validateMaze walls spawn width height = true ↔
      ∀ c, openCell walls width height c →
        Reach walls width height (cellOf spawn) c :=
  validateMaze_correct walls spawn width height hin hopen

/-- Witness for `validateMaze_true_iff`: on a fully open 2 by 2 grid the
validator accepts and the opposite corner is reachable. -/
theorem validateMaze_true_iff_witness :
    Reach [[false, false], [false, false]] 2 2 (0, 0) (1, 1) := by
  have h := (validateMaze_true_iff [[false, false], [false, false]] ⟨0, 0⟩ 2 2
    ⟨by decide, by decide⟩ (by decide) (by decide)).mp (by decide)
  exact h (1, 1) (by decide)

set_option maxRecDepth 10000 in
/-- C3 counterexample: in the maze returned by `generateMaze`, the power
pellet at `(1, 3)` sits on a cell that also holds an ordinary dot, so the
claimed dot/pellet disjointness fails. -/
theorem dots_pellet_overlap_counterexample :
    (⟨1, 3⟩ : Position) ∈ (MazeGenerator.generateMaze 1).powerPellets ∧
      getCell (MazeGenerator.generateMaze 1).dots 1 3 false = true := by
  rw [classic_generateMaze_eq]
  exact ⟨by decide, by decide⟩

set_option maxRecDepth 10000 in
/-- C3 (amended): in every `MazeData` returned by `generateMaze`, dots are
absent from every wall cell and every power pellet lies on a non-wall cell;
however each of the four power-pellet cells also holds an ordinary dot in
the `MazeData` (the scene removes the dot sprites under pellets when
rendering). -/
theorem dots_pellets_spec (level : Nat) :
    (∀ c ∈ cellList (MazeGenerator.generateMaze level).width
        (MazeGenerator.generateMaze level).height,
      getCell (MazeGenerator.generateMaze level).walls c.2 c.1 true = true →
      getCell (MazeGenerator.generateMaze level).dots c.2 c.1 false = false) ∧
    (∀ p ∈ (MazeGenerator.generateMaze level).powerPellets,
      getCell (MazeGenerator.generateMaze level).walls p.x.toNat p.y.toNat true
        = false) ∧
    (∀ p ∈ (MazeGenerator.generateMaze level).powerPellets,
      getCell (MazeGenerator.generateMaze level).dots p.x.toNat p.y.toNat false
        = true) := by
  rw [classic_generateMaze_eq]
  show (∀ c ∈ cellList 28 31,
      getCell classicWalls c.2 c.1 true = true →
      getCell classicDots c.2 c.1 false = false) ∧
    (∀ p ∈ classicPellets,
      getCell classicWalls p.x.toNat p.y.toNat true = false) ∧
    (∀ p ∈ classicPellets,
      getCell classicDots p.x.toNat p.y.toNat false = true)
  refine ⟨?_, by decide, by decide⟩
  have h : (cellList 28 31).all (fun c =>
      !(getCell classicWalls c.2 c.1 true) ||
        !(getCell classicDots c.2 c.1 false)) = true := by
    decide
  intro c hc hw
  have h2 := List.all_eq_true.mp h c hc
  rw [hw] at h2
  simpa using h2

set_option maxRecDepth 10000 in
/-- C4: every generated maze has exactly two tunnels, sitting on row 15 at
the two opposite horizontal edges (columns 0 and `width - 1`), mutually
inverse, and both tunnel cells are open. -/
theorem tunnels_spec (level : Nat) :
    ∃ t1 t2 : TunnelPair,
      (MazeGenerator.generateMaze level).tunnels = [t1, t2] ∧
      t1.entrance.x = 0 ∧
      t2.entrance.x = ((MazeGenerator.generateMaze level).width : Int) - 1 ∧
      t1.entrance.y = t2.entrance.y ∧
      t1.exit = t2.entrance ∧
      t2.exit = t1.entrance ∧
      getCell (MazeGenerator.generateMaze level).walls t1.entrance.x.toNat
        t1.entrance.y.toNat true = false ∧
      getCell (MazeGenerator.generateMaze level).walls t2.entrance.x.toNat
        t2.entrance.y.toNat true = false := by
  rw [classic_generateMaze_eq]
  exact ⟨⟨⟨0, 15⟩, ⟨27, 15⟩⟩, ⟨⟨27, 15⟩, ⟨0, 15⟩⟩, by decide⟩

/-- C10: the classic-layout generator is deterministic and independent of
its level argument, always returning the same `MazeData` with width 28,
height 31, player spawn `(14, 29)` and ghost spawn `(14, 15)`. -/
theorem generateMaze_level_independent (l1 l2 : Nat) :
    MazeGenerator.generateMaze l1 = MazeGenerator.generateMaze l2 ∧
    (MazeGenerator.generateMaze l1).width = 28 ∧
    (MazeGenerator.generateMaze l1).height = 31 ∧
    (MazeGenerator.generateMaze l1).playerSpawn = ⟨14, 29⟩ ∧
    (MazeGenerator.generateMaze l1).ghostSpawn = ⟨14, 15⟩ :=
  ⟨rfl, rfl, rfl, rfl, rfl⟩

end WebPacman
